import Mathlib

/-!
Verification of the synthetic activity simulation engine of the Tradeassist
dashboard: the timing utilities (simulationTiming.ts), the bot activity
generator (useBotSimulation.ts) and the smart alert generator
(useSmartAlerts.ts).  JavaScript numbers are modelled as rationals, and
every call to Math.random() is modelled as reading the next value of an
explicit stream of rationals assumed to lie in [0, 1).
-/

/-- Time-of-day bucket, simulationTiming.ts. -/
inductive TimeOfDaySlot
  | morning | midday | evening | night
deriving DecidableEq, Repr

/-- Trading session bucket, types/simulation.ts. -/
inductive SessionSlot
  | asia_open | asia_mid | europe_open | us_open | us_power | overnight
deriving DecidableEq, Repr

/-- Market regime, types/simulation.ts. -/
inductive MarketRegime
  | bull | bear | sideways | volatile
deriving DecidableEq, Repr

/-- Volatility bucket of MarketCondition, useBotSimulation.ts. -/
inductive Volatility
  | low | medium | high
deriving DecidableEq, Repr

/-- Trend bucket of MarketCondition, useBotSimulation.ts. -/
inductive Trend
  | up | down | sideways
deriving DecidableEq, Repr

/-- Message / alert priority (NotificationPriority). -/
inductive Priority
  | low | medium | high
deriving DecidableEq, Repr

/-- JavaScript Math.round: round half toward positive infinity. -/
def jsRound (q : ℚ) : ℤ := ⌊q + 1 / 2⌋

/-- JavaScript Array.prototype.slice with a single (possibly negative)
integral start argument: a negative start counts from the end of the array
(clamped at 0), a nonnegative start drops that many leading entries. -/
def jsSliceFrom (l : List α) (k : ℤ) : List α :=
  if k < 0 then l.drop (l.length - (-k).toNat) else l.drop k.toNat

/-- Last `n` entries of a list (the result of slice(-n) for n ≥ 1). -/
def lastN (n : ℕ) (l : List α) : List α := l.drop (l.length - n)

/-! ## simulationTiming.ts -/

/-- One entry of SESSION_WINDOWS: a session slot with its UTC-hour window.
The field holding the upper bound is called stop because end is reserved. -/
structure SessionWindow where
  slot : SessionSlot
  start : ℕ
  stop : ℕ
deriving DecidableEq, Repr

/-- SESSION_WINDOWS table, simulationTiming.ts lines 5-12. -/
def SESSION_WINDOWS : List SessionWindow :=
  [⟨.asia_open, 23, 3⟩, ⟨.asia_mid, 3, 8⟩, ⟨.europe_open, 8, 13⟩,
   ⟨.us_open, 13, 18⟩, ⟨.us_power, 18, 22⟩, ⟨.overnight, 22, 23⟩]

/-- Loop-body test of getUtcSessionSlot: a window with start > end wraps past
midnight and matches hour ≥ start or hour < end; otherwise the window is the
half-open range [start, end). -/
def windowMatches (w : SessionWindow) (hour : ℕ) : Bool :=
  if w.stop < w.start then decide (w.start ≤ hour) || decide (hour < w.stop)
  else decide (w.start ≤ hour) && decide (hour < w.stop)

/-- Result of the for-loop of getUtcSessionSlot: the slot of the first
matching window, or none when the loop falls through to the fallback. -/
def getUtcSessionSlotLoop (hour : ℕ) : Option SessionSlot :=
  (SESSION_WINDOWS.find? (fun w => windowMatches w hour)).map (fun w => w.slot)

/-- getUtcSessionSlot, simulationTiming.ts lines 45-57; the trailing
return is the asia_mid fallback. -/
def getUtcSessionSlot (hour : ℕ) : SessionSlot :=
  (getUtcSessionSlotLoop hour).getD .asia_mid

/-- getTimeOfDaySlot, simulationTiming.ts lines 37-43, on the UTC hour. -/
def getTimeOfDaySlot (hour : ℕ) : TimeOfDaySlot :=
  if 6 ≤ hour ∧ hour < 12 then .morning
  else if 12 ≤ hour ∧ hour < 17 then .midday
  else if 17 ≤ hour ∧ hour < 22 then .evening
  else .night

/-- randomBetween(min, max) where r stands for the Math.random() draw. -/
def randomBetween (lo hi r : ℚ) : ℚ := lo + r * (hi - lo)

/-- randomIntBetween(min, max) = floor(randomBetween(min, max + 1)). -/
def randomIntBetween (lo hi r : ℚ) : ℤ := ⌊randomBetween lo (hi + 1) r⌋

/-- SESSION_TEMPO_BOUNDS table, simulationTiming.ts lines 14-21. -/
def SESSION_TEMPO_BOUNDS : SessionSlot → ℚ × ℚ
  | .asia_open => (0.95, 1.05)
  | .asia_mid => (1.05, 1.2)
  | .europe_open => (0.85, 0.95)
  | .us_open => (0.7, 0.88)
  | .us_power => (0.65, 0.85)
  | .overnight => (1.15, 1.35)

/-- REGIME_TEMPO_BOUNDS table, simulationTiming.ts lines 23-28. -/
def REGIME_TEMPO_BOUNDS : MarketRegime → ℚ × ℚ
  | .bull => (0.85, 0.95)
  | .bear => (0.95, 1.1)
  | .sideways => (1.05, 1.2)
  | .volatile => (0.65, 0.85)

/-- getSessionTempoFactor with its Math.random() draw made explicit. -/
def getSessionTempoFactor (slot : SessionSlot) (r : ℚ) : ℚ :=
  randomBetween (SESSION_TEMPO_BOUNDS slot).1 (SESSION_TEMPO_BOUNDS slot).2 r

/-- getRegimeTempoFactor with its Math.random() draw made explicit. -/
def getRegimeTempoFactor (regime : MarketRegime) (r : ℚ) : ℚ :=
  randomBetween (REGIME_TEMPO_BOUNDS regime).1 (REGIME_TEMPO_BOUNDS regime).2 r

/-! ## Randomness -/

/-- Explicit model of the Math.random() source: a stream of rationals and a
cursor; each call to Math.random() reads the cursor position and advances. -/
structure RandomTape where
  stream : ℕ → ℚ
  idx : ℕ

/-- Draw the next random value. -/
def RandomTape.next (r : RandomTape) : ℚ × RandomTape :=
  (r.stream r.idx, ⟨r.stream, r.idx + 1⟩)

/-- Hypothesis that every stream value lies in [0, 1), as Math.random()
guarantees. -/
def UnitStream (f : ℕ → ℚ) : Prop := ∀ n, 0 ≤ f n ∧ f n < 1

/-! ## Interval scheduler configuration (shared shape of both hooks) -/

/-- IntervalWindowConfig: burst or calm window configuration.  The two range
pairs are spelled out as four fields. -/
structure IntervalWindowConfig where
  probability : ℚ
  lengthLo : ℚ
  lengthHi : ℚ
  multLo : ℚ
  multHi : ℚ
deriving DecidableEq, Repr

/-- Mutable scheduling state shared by both computeNextInterval functions:
the burst and calm remaining counters and the interval history. -/
structure SchedState where
  burst : ℕ
  calm : ℕ
  history : List ℚ
deriving DecidableEq, Repr

/-- applyWindowMultiplier (useBotSimulation.ts lines 497-513, and verbatim
again in useSmartAlerts.ts lines 528-544): when a window is active its
counter is decremented and a multiplier is drawn from the window's range;
otherwise with the configured probability a fresh window of span
max(1, randomIntBetween(lengthRange)) is triggered (remaining := span - 1)
and its multiplier applied immediately; otherwise the multiplier is 1. -/
def applyWindowMultiplier (remaining : ℕ) (cfg : IntervalWindowConfig)
    (r : RandomTape) : ℚ × ℕ × RandomTape :=
  if remaining > 0 then
    let (u, r1) := r.next
    (randomBetween cfg.multLo cfg.multHi u, remaining - 1, r1)
  else
    let (p, r1) := r.next
    if p < cfg.probability then
      let (ul, r2) := r1.next
      let span := max 1 (randomIntBetween cfg.lengthLo cfg.lengthHi ul)
      let (um, r3) := r2.next
      (randomBetween cfg.multLo cfg.multHi um, (span - 1).toNat, r3)
    else (1, remaining, r1)

/-- History update shared by both hooks: intervalHistoryRef.current =
[...history.slice(-(maxConsistentIntervals - 1)), interval]. -/
def pushHistory (maxConsistentIntervals : ℕ) (history : List ℚ) (interval : ℚ) :
    List ℚ :=
  jsSliceFrom history (-((maxConsistentIntervals : ℤ) - 1)) ++ [interval]

namespace BotSim

/-- BotTimingConfig, useBotSimulation.ts lines 29-43.  The two Record-typed
multiplier tables are modelled as total functions (a Record of the
enumerated key type is total, so the ?? 1 fallback on lookup never fires). -/
structure BotTimingConfig where
  baseInterval : ℚ
  variance : ℚ
  minInterval : ℚ
  maxConsistentIntervals : ℕ
  burst : IntervalWindowConfig
  calm : IntervalWindowConfig
  timeOfDayMultipliers : TimeOfDaySlot → ℚ
  highVolatility : ℚ
  lowVolatility : ℚ
  trending : ℚ
  sideways : ℚ

/-- DEFAULT_BOT_TIMING, useBotSimulation.ts lines 52-79. -/
def DEFAULT_BOT_TIMING : BotTimingConfig where
  baseInterval := 12000
  variance := 0.35
  minInterval := 800
  maxConsistentIntervals := 3
  burst := ⟨0.18, 2, 4, 0.15, 0.45⟩
  calm := ⟨0.12, 2, 3, 1.4, 2.2⟩
  timeOfDayMultipliers := fun s => match s with
    | .morning => 0.9
    | .midday => 1
    | .evening => 1.1
    | .night => 1.25
  highVolatility := 0.65
  lowVolatility := 1.2
  trending := 0.85
  sideways := 1.05

/-- Context read by the bot computeNextInterval: the current UTC hour (via
getTimeOfDaySlot), the market condition buckets, the session slot and the
market regime. -/
structure IntervalContext where
  hour : ℕ
  volatility : Volatility
  trend : Trend
  session : SessionSlot
  regime : MarketRegime

/-- computeNextInterval of useBotSimulation.ts (lines 478-537), with the
ref-held scheduling state passed and returned explicitly and every
Math.random() call reading the random tape. -/
def computeNextInterval (cfg : BotTimingConfig) (ctx : IntervalContext)
    (st : SchedState) (r0 : RandomTape) : ℚ × SchedState × RandomTape :=
  let r1 := r0.next
  let varianceFactor := 1 - cfg.variance + r1.1 * (cfg.variance * 2)
  let timeOfDayMultiplier := cfg.timeOfDayMultipliers (getTimeOfDaySlot ctx.hour)
  let i1 := cfg.baseInterval * varianceFactor * timeOfDayMultiplier
  let i2 := match ctx.volatility with
    | .high => i1 * cfg.highVolatility
    | .low => i1 * cfg.lowVolatility
    | .medium => i1
  let i3 := if ctx.trend = .sideways then i2 * cfg.sideways else i2 * cfg.trending
  let r2 := r1.2.next
  let i4 := i3 * getSessionTempoFactor ctx.session r2.1
  let r3 := r2.2.next
  let i5 := i4 * getRegimeTempoFactor ctx.regime r3.1
  let b := applyWindowMultiplier st.burst cfg.burst r3.2
  let i6 := i5 * b.1
  let c := applyWindowMultiplier st.calm cfg.calm b.2.2
  let i7 := i6 * c.1
  let i8 := max i7 cfg.minInterval
  let tolerance := cfg.baseInterval * 0.05
  let consistent := (st.history.length : ℤ) ≥ (cfg.maxConsistentIntervals : ℤ) - 1 ∧
    ∀ v ∈ st.history, |v - i8| ≤ tolerance
  let i9 := if consistent then i8 * (0.75 + (c.2.2.next).1 * 0.5) else i8
  let r6 := if consistent then (c.2.2.next).2 else c.2.2
  (i9, ⟨b.2.1, c.2.1, pushHistory cfg.maxConsistentIntervals st.history i9⟩, r6)

/-- Outputs of n consecutive calls to computeNextInterval, threading the
scheduling state and the random tape (the scheduling loop of the hook
calls it once per emission). -/
def runIntervals (cfg : BotTimingConfig) (ctx : IntervalContext) :
    ℕ → SchedState → RandomTape → List ℚ
  | 0, _, _ => []
  | n + 1, st, r =>
    let c := computeNextInterval cfg ctx st r
    c.1 :: runIntervals cfg ctx n c.2.1 c.2.2

end BotSim

namespace SmartAlerts

/-- AlertTimingConfig, useSmartAlerts.ts lines 34-59; the Record-typed
tables are modelled as total functions of their enumerated key types. -/
structure AlertTimingConfig where
  baseInterval : ℚ
  variance : ℚ
  minInterval : ℚ
  maxConsistentIntervals : ℕ
  burst : IntervalWindowConfig
  calm : IntervalWindowConfig
  timeOfDayMultipliers : TimeOfDaySlot → ℚ
  volatilityHigh : ℚ
  volatilityLow : ℚ
  trendTrending : ℚ
  trendSideways : ℚ
  accelExecution : ℚ
  accelRisk : ℚ
  accelPortfolio : ℚ
  accelNews : ℚ
  accelUser : ℚ
  accelArbitrage : ℚ
  priorityOffsets : Priority → ℚ

/-- DEFAULT_ALERT_TIMING, useSmartAlerts.ts lines 61-103. -/
def DEFAULT_ALERT_TIMING : AlertTimingConfig where
  baseInterval := 32000
  variance := 0.25
  minInterval := 6000
  maxConsistentIntervals := 3
  burst := ⟨0.12, 2, 3, 0.25, 0.6⟩
  calm := ⟨0.25, 2, 3, 1.8, 2.6⟩
  timeOfDayMultipliers := fun s => match s with
    | .morning => 1.05
    | .midday => 1.15
    | .evening => 1.3
    | .night => 1.4
  volatilityHigh := 0.85
  volatilityLow := 1.35
  trendTrending := 0.95
  trendSideways := 1.15
  accelExecution := 0.9
  accelRisk := 0.7
  accelPortfolio := 0.95
  accelNews := 0.85
  accelUser := 1
  accelArbitrage := 0.9
  priorityOffsets := fun p => match p with
    | .high => 0.85
    | .medium => 1
    | .low => 1.3

/-- Direction of the realized pnl. -/
inductive PnlDirection
  | positive | negative
deriving DecidableEq, Repr

/-- AlertContext, useSmartAlerts.ts lines 114-124. -/
structure AlertContext where
  volatility : Volatility
  trend : Trend
  pnlDirection : PnlDirection
  executionEvent : Bool
  riskEvent : Bool
  portfolioEvent : Bool
  newsEvent : Bool
  userEvent : Bool
  arbitrageEvent : Bool
deriving DecidableEq, Repr

/-- computeNextInterval of useSmartAlerts.ts (lines 493-566), with the
ref-held scheduling state and the last emitted priority passed explicitly
and every Math.random() call reading the random tape. -/
def computeNextInterval (cfg : AlertTimingConfig) (hour : ℕ) (ctx : AlertContext)
    (lastPriority : Priority) (st : SchedState) (r0 : RandomTape) :
    ℚ × SchedState × RandomTape :=
  let r1 := r0.next
  let varianceFactor := 1 - cfg.variance + r1.1 * (cfg.variance * 2)
  let timeOfDayMultiplier := cfg.timeOfDayMultipliers (getTimeOfDaySlot hour)
  let i1 := cfg.baseInterval * varianceFactor * timeOfDayMultiplier
  let i2 := match ctx.volatility with
    | .high => i1 * cfg.volatilityHigh
    | .low => i1 * cfg.volatilityLow
    | .medium => i1
  let i3 := if ctx.trend = .sideways then i2 * cfg.trendSideways
    else i2 * cfg.trendTrending
  let applyEventMultiplier := fun (active : Bool) (m : ℚ) (i : ℚ) =>
    if active then i * m else i
  let i4 := applyEventMultiplier ctx.executionEvent cfg.accelExecution i3
  let i5 := applyEventMultiplier ctx.riskEvent cfg.accelRisk i4
  let i6 := applyEventMultiplier ctx.portfolioEvent cfg.accelPortfolio i5
  let i7 := applyEventMultiplier ctx.newsEvent cfg.accelNews i6
  let i8 := applyEventMultiplier ctx.userEvent cfg.accelUser i7
  let i9 := applyEventMultiplier ctx.arbitrageEvent cfg.accelArbitrage i8
  let i10 := i9 * cfg.priorityOffsets lastPriority
  let b := applyWindowMultiplier st.burst cfg.burst r1.2
  let i11 := i10 * b.1
  let c := applyWindowMultiplier st.calm cfg.calm b.2.2
  let i12 := i11 * c.1
  let i13 := max i12 cfg.minInterval
  let tolerance := cfg.baseInterval * 0.05
  let consistent := (st.history.length : ℤ) ≥ (cfg.maxConsistentIntervals : ℤ) - 1 ∧
    ∀ v ∈ st.history, |v - i13| ≤ tolerance
  let i14 := if consistent then i13 * (0.75 + (c.2.2.next).1 * 0.45) else i13
  let r4 := if consistent then (c.2.2.next).2 else c.2.2
  (i14, ⟨b.2.1, c.2.1, pushHistory cfg.maxConsistentIntervals st.history i14⟩, r4)

/-- Outputs of n consecutive calls to the alert computeNextInterval,
threading the scheduling state and the random tape. -/
def runIntervals (cfg : AlertTimingConfig) (hour : ℕ) (ctx : AlertContext)
    (lastPriority : Priority) :
    ℕ → SchedState → RandomTape → List ℚ
  | 0, _, _ => []
  | n + 1, st, r =>
    let c := computeNextInterval cfg hour ctx lastPriority st r
    c.1 :: runIntervals cfg hour ctx lastPriority n c.2.1 c.2.2

end SmartAlerts

namespace BotSim

/-- Bot message category.  botMessages.ts is not part of the captured
sources; the seven categories are the ones named by useBotSimulation.ts
(REGIME_CATEGORY_WEIGHTS, SESSION_CATEGORY_WEIGHTS, OUTCOME_CATEGORIES)
and spec section 3. -/
inductive MessageCategory
  | market_scanning | trade_execution | risk_management | portfolio_actions
  | advanced_signals | order_management | technical_analysis
deriving DecidableEq, Repr

/-- Market-condition preference labels returned by
getMarketConditionPreference, useBotSimulation.ts line 252. -/
inductive MarketConditionPreference
  | volatile | stable | trending | ranging
deriving DecidableEq, Repr

/-- Value of a template's timePreference field: the literal "any" or one
specific time-of-day slot. -/
inductive TimePreference
  | any | slotIs (s : TimeOfDaySlot)
deriving DecidableEq, Repr

/-- Value of a template's marketCondition field: the literal "any" or one
specific market-condition preference. -/
inductive MarketPreference
  | any | condIs (c : MarketConditionPreference)
deriving DecidableEq, Repr

/-- MessageTemplate.  Modelled from the spec: botMessages.ts is missing
from the captured sources, so the fields are reconstructed from the
template catalog description of spec section 3 and from every access
useBotSimulation.ts makes (id, category, template body, priority, optional
timePreference, optional marketCondition). -/
structure MessageTemplate where
  id : String
  category : MessageCategory
  template : String
  priority : Priority
  timePreference : Option TimePreference
  marketCondition : Option MarketPreference
deriving DecidableEq, Repr

/-- getMarketConditionPreference, useBotSimulation.ts lines 252-257. -/
def getMarketConditionPreference (v : Volatility) (t : Trend) :
    MarketConditionPreference :=
  if v = .high then .volatile
  else if t ≠ .sideways then .trending
  else if v = .low then .ranging
  else .stable

/-- REGIME_CATEGORY_WEIGHTS, useBotSimulation.ts lines 81-104 (none for a
category the regime's partial record does not list). -/
def REGIME_CATEGORY_WEIGHTS : MarketRegime → MessageCategory → Option ℚ
  | .bull, .trade_execution => some 1.4
  | .bull, .portfolio_actions => some 1.2
  | .bull, .advanced_signals => some 1.15
  | .bull, .risk_management => some 0.85
  | .bear, .risk_management => some 1.5
  | .bear, .order_management => some 1.2
  | .bear, .portfolio_actions => some 1.1
  | .bear, .trade_execution => some 0.8
  | .sideways, .technical_analysis => some 1.3
  | .sideways, .market_scanning => some 1.2
  | .sideways, .trade_execution => some 0.9
  | .volatile, .advanced_signals => some 1.35
  | .volatile, .risk_management => some 1.25
  | .volatile, .order_management => some 1.1
  | _, _ => none

/-- SESSION_CATEGORY_WEIGHTS, useBotSimulation.ts lines 106-132. -/
def SESSION_CATEGORY_WEIGHTS : SessionSlot → MessageCategory → Option ℚ
  | .asia_open, .market_scanning => some 1.2
  | .asia_open, .advanced_signals => some 1.1
  | .asia_mid, .technical_analysis => some 1.15
  | .asia_mid, .advanced_signals => some 1.05
  | .europe_open, .technical_analysis => some 1.2
  | .europe_open, .risk_management => some 1.1
  | .europe_open, .trade_execution => some 1.05
  | .us_open, .trade_execution => some 1.3
  | .us_open, .order_management => some 1.2
  | .us_power, .trade_execution => some 1.35
  | .us_power, .portfolio_actions => some 1.15
  | .overnight, .market_scanning => some 1.25
  | .overnight, .risk_management => some 1.2
  | _, _ => none

/-- Priority weight of the weighted selector: high 3, medium 2, low 1
(useBotSimulation.ts line 444). -/
def priorityWeight : Priority → ℚ
  | .high => 3
  | .medium => 2
  | .low => 1

/-- getFilteredTemplates, useBotSimulation.ts lines 282-312: drop templates
whose id is in the recent-use set, whose timePreference is a slot other
than the current one, or whose marketCondition is a preference other than
the current one.  The catalog (MESSAGE_TEMPLATES in the source) is a
parameter. -/
def getFilteredTemplates (catalog : List MessageTemplate)
    (recent : List String) (slot : TimeOfDaySlot)
    (pref : MarketConditionPreference) : List MessageTemplate :=
  catalog.filter fun t =>
    !(recent.contains t.id) &&
    (match t.timePreference with
     | none => true
     | some .any => true
     | some (.slotIs s) => decide (s = slot)) &&
    (match t.marketCondition with
     | none => true
     | some .any => true
     | some (.condIs c) => decide (c = pref))

/-- Recent-use bookkeeping of generateMessage, useBotSimulation.ts lines
459-466: Set.add of the chosen id (a no-op when already present) followed,
when the size exceeds 15, by trimming to the last 15 insertion-ordered
entries. -/
def recordRecentUse (recent : List String) (id : String) : List String :=
  let added := if recent.contains id then recent else recent ++ [id]
  if added.length > 15 then lastN 15 added else added

/-- Combined selection weight of one candidate, useBotSimulation.ts lines
444-449: max(1, round(priorityWeight * regimeWeight * sessionWeight)) with
regime and session weights defaulting to 1 for unlisted categories. -/
def weightFor (regime : MarketRegime) (session : SessionSlot)
    (t : MessageTemplate) : ℕ :=
  (max 1 (jsRound (priorityWeight t.priority *
    ((REGIME_CATEGORY_WEIGHTS regime t.category).getD 1) *
    ((SESSION_CATEGORY_WEIGHTS session t.category).getD 1)))).toNat

/-- Weighted pool of generateMessage, useBotSimulation.ts lines 442-453:
each candidate repeated weightFor times, in catalog order. -/
def buildWeightedPool (candidates : List MessageTemplate)
    (regime : MarketRegime) (session : SessionSlot) : List MessageTemplate :=
  candidates.flatMap fun t => List.replicate (weightFor regime session t) t

/-- Template-selection core of generateMessage, useBotSimulation.ts lines
432-476, with the recent-use ref passed and returned explicitly and the
pool draw r standing for Math.random().  On candidate exhaustion the
recent-use set is cleared and no template is returned; otherwise the pool
entry at index floor(r * pool.length) is returned and recorded as recently
used.  (Placeholder filling and message-record assembly produce the
message body and are independent of selection.) -/
def generateMessage (catalog : List MessageTemplate) (recent : List String)
    (slot : TimeOfDaySlot) (pref : MarketConditionPreference)
    (regime : MarketRegime) (session : SessionSlot) (r : ℚ) :
    Option MessageTemplate × List String :=
  let filtered := getFilteredTemplates catalog recent slot pref
  if filtered.isEmpty then (none, [])
  else
    let pool := buildWeightedPool filtered regime session
    match pool.get? (⌊r * (pool.length : ℚ)⌋).toNat with
    | some t => (some t, recordRecentUse recent t.id)
    | none => (none, recent)

/-- Per-emission context of a run of the generator. -/
structure GenContext where
  slot : TimeOfDaySlot
  pref : MarketConditionPreference
  regime : MarketRegime
  session : SessionSlot

/-- Run of n consecutive generateMessage calls from an initial recent-use
set, with an arbitrary context and pool draw per step; returns the emitted
template ids in emission order together with the final recent-use set. -/
def botRun (catalog : List MessageTemplate) (ctxs : ℕ → GenContext)
    (rs : ℕ → ℚ) (recent0 : List String) : ℕ → List String × List String
  | 0 => ([], recent0)
  | n + 1 =>
    let p := botRun catalog ctxs rs recent0 n
    let g := generateMessage catalog p.2 (ctxs n).slot (ctxs n).pref
      (ctxs n).regime (ctxs n).session (rs n)
    match g.1 with
    | some t => (p.1 ++ [t.id], g.2)
    | none => (p.1, g.2)

/-- Buffer append of pushMessage, useBotSimulation.ts lines 573-583: a
null message leaves the buffer untouched, otherwise the message is
appended and the buffer trimmed with slice(-50).  Buffer entries are
abstracted to their message ids. -/
def pushMessage (buf : List String) (m : Option String) : List String :=
  match m with
  | none => buf
  | some x => jsSliceFrom (buf ++ [x]) (-50)

end BotSim

namespace SmartAlerts

/-- Alert category, alertTemplates.ts. -/
inductive AlertCategory
  | marketVolatility | executionSuccess | riskManagement | technicalSignals
  | portfolioEvents | arbitrageDetection | newsEvents | userActions
deriving DecidableEq, Repr

/-- CategoryEventKey, useSmartAlerts.ts lines 11-17. -/
inductive CategoryEventKey
  | executionEvent | riskEvent | portfolioEvent | newsEvent | userEvent
  | arbitrageEvent
deriving DecidableEq, Repr

/-- CATEGORY_CONTEXT_REQUIREMENTS, useSmartAlerts.ts lines 19-26. -/
def CATEGORY_CONTEXT_REQUIREMENTS : AlertCategory → Option CategoryEventKey
  | .executionSuccess => some .executionEvent
  | .riskManagement => some .riskEvent
  | .portfolioEvents => some .portfolioEvent
  | .newsEvents => some .newsEvent
  | .userActions => some .userEvent
  | .arbitrageDetection => some .arbitrageEvent
  | .marketVolatility => none
  | .technicalSignals => none

/-- Read one boolean event flag of the alert context. -/
def AlertContext.event (ctx : AlertContext) : CategoryEventKey → Bool
  | .executionEvent => ctx.executionEvent
  | .riskEvent => ctx.riskEvent
  | .portfolioEvent => ctx.portfolioEvent
  | .newsEvent => ctx.newsEvent
  | .userEvent => ctx.userEvent
  | .arbitrageEvent => ctx.arbitrageEvent

/-- AlertConditions, alertTemplates.ts: optional allow-lists and optional
requirement flags (an absent boolean field behaves as false in the
truthiness checks of matchesConditions and is modelled as false). -/
structure AlertConditions where
  volatility : Option (List Volatility)
  trend : Option (List Trend)
  pnlDirection : Option (List PnlDirection)
  requiresExecution : Bool
  requiresRisk : Bool
  requiresPortfolioShift : Bool
  requiresNews : Bool
  requiresUserAction : Bool
  requiresArbitrage : Bool
deriving DecidableEq, Repr

/-- AlertTemplate, alertTemplates.ts.  The icon and color fields are
presentational strings never read by the selection logic and are
omitted. -/
structure AlertTemplate where
  id : String
  category : AlertCategory
  template : String
  priority : Priority
  conditions : Option AlertConditions
deriving DecidableEq, Repr

/-- matchesConditions, useSmartAlerts.ts lines 308-349. -/
def matchesConditions (ctx : AlertContext) (t : AlertTemplate) : Bool :=
  (match t.conditions with
   | none => true
   | some c =>
     (match c.volatility with
      | none => true
      | some l => l.contains ctx.volatility) &&
     (match c.trend with
      | none => true
      | some l => l.contains ctx.trend) &&
     (match c.pnlDirection with
      | none => true
      | some l => l.contains ctx.pnlDirection) &&
     (!c.requiresExecution || ctx.executionEvent) &&
     (!c.requiresRisk || ctx.riskEvent) &&
     (!c.requiresPortfolioShift || ctx.portfolioEvent) &&
     (!c.requiresNews || ctx.newsEvent) &&
     (!c.requiresUserAction || ctx.userEvent) &&
     (!c.requiresArbitrage || ctx.arbitrageEvent)) &&
  (match CATEGORY_CONTEXT_REQUIREMENTS t.category with
   | none => true
   | some k => ctx.event k)

/-- REPEAT_WINDOW_MS, useSmartAlerts.ts line 8. -/
def REPEAT_WINDOW_MS : ℤ := 60 * 60 * 1000

/-- pickRandom, useSmartAlerts.ts line 145: a uniform index draw from a
non-empty list, with a fallback for the empty list.  An index past the end
cannot occur for a draw in [0,1) and yields the fallback in the model. -/
def pickRandom (items : List α) (fallback : α) (r : ℚ) : α :=
  if items.length ≠ 0 then
    (items.get? (⌊r * (items.length : ℚ)⌋).toNat).getD fallback
  else fallback

/-- Map.set of lastTemplateUsageRef modelled on an association list:
lookups read the first binding of a key. -/
def setUsage (usage : List (String × ℤ)) (id : String) (now : ℤ) :
    List (String × ℤ) :=
  (id, now) :: usage.filter fun p => p.1 ≠ id

/-- Eligibility filter of generateAlert, useSmartAlerts.ts lines 455-461:
a template is eligible when it was not used within REPEAT_WINDOW_MS (a
stored timestamp of 0 is falsy in the source's truthiness test) and
matchesConditions holds. -/
def eligibleAlerts (catalog : List AlertTemplate) (usage : List (String × ℤ))
    (now : ℤ) (ctx : AlertContext) : List AlertTemplate :=
  catalog.filter fun t =>
    (match (usage.lookup t.id) with
     | some last => !(decide (last ≠ 0) && decide (now - last < REPEAT_WINDOW_MS))
     | none => true) && matchesConditions ctx t

/-- Template-selection core of generateAlert, useSmartAlerts.ts lines
453-491, with the last-usage map passed and returned explicitly.  On
exhaustion the usage map is cleared and no alert is produced; otherwise a
priority-weighted uniform pick is recorded into the usage map.
(Placeholder filling builds the notification body and is independent of
selection.) -/
def generateAlert (catalog : List AlertTemplate) (usage : List (String × ℤ))
    (now : ℤ) (ctx : AlertContext) (r : ℚ) :
    Option AlertTemplate × List (String × ℤ) :=
  let eligible := eligibleAlerts catalog usage now ctx
  match eligible with
  | [] => (none, [])
  | e0 :: _ =>
    let weighted := eligible.flatMap fun t =>
      List.replicate (match t.priority with
        | .high => 3
        | .medium => 2
        | .low => 1) t
    let t := pickRandom weighted e0 r
    (some t, setUsage usage t.id now)

/-- MAX_ALERTS, useSmartAlerts.ts line 9. -/
def MAX_ALERTS : ℕ := 3

/-- Buffer append of emitAlert, useSmartAlerts.ts lines 586-594: a null
alert leaves the buffer untouched, otherwise the alert is appended and the
buffer trimmed with slice(-MAX_ALERTS).  Buffer entries are abstracted to
their alert ids. -/
def emitAlert (buf : List String) (a : Option String) : List String :=
  match a with
  | none => buf
  | some x => jsSliceFrom (buf ++ [x]) (-(MAX_ALERTS : ℤ))

end SmartAlerts

namespace BotSim

/-- Observable state of the useBotSimulation scheduling loop: the enabled
prop, the cancellation flag of the current effect closure, the armed
timeout (id and delay) if any, a fresh-id counter for timeouts, the
message buffer (as message ids), the seeding latch, the recent-use set and
the interval-scheduler state. -/
structure LoopState where
  enabled : Bool
  cancelled : Bool
  pending : Option (ℕ × ℚ)
  timerSeq : ℕ
  messages : List String
  hasSeeded : Bool
  recent : List String
  sched : SchedState

/-- Inputs a single loop step reads from the environment: the generator
context, the interval context, the pool draw of generateMessage and the
random tape of computeNextInterval. -/
structure StepEnv where
  gen : GenContext
  interval : IntervalContext
  pick : ℚ
  tape : RandomTape

/-- Disable transition: the effect cleanup (useBotSimulation.ts lines
597-604) sets the closure's cancelled flag and clears the timeout, and the
effect body re-run with enabled=false (lines 546-553) clears the timeout
again and resets the seeding latch.  Nothing else is touched. -/
def disableStep (s : LoopState) : LoopState :=
  { s with enabled := false, cancelled := true, pending := none,
           hasSeeded := false }

/-- scheduleNext (useBotSimulation.ts lines 585-592): when not cancelled,
compute the next delay (mutating the scheduler state) and arm a fresh
timeout. -/
def scheduleNext (cfg : BotTimingConfig) (s : LoopState) (env : StepEnv) :
    LoopState :=
  if s.cancelled then s
  else
    let c := computeNextInterval cfg env.interval s.sched env.tape
    { s with sched := c.2.1, pending := some (s.timerSeq, c.1),
             timerSeq := s.timerSeq + 1 }

/-- Helper of fireStep: the buffer/recent-use update of one pushMessage
call (useBotSimulation.ts lines 573-583). -/
def pushStep (catalog : List MessageTemplate) (s : LoopState) (env : StepEnv) :
    LoopState :=
  let g := generateMessage catalog s.recent env.gen.slot env.gen.pref
    env.gen.regime env.gen.session env.pick
  match g.1 with
  | some t =>
    { s with messages := pushMessage s.messages (some t.id), recent := g.2 }
  | none => { s with recent := g.2 }

/-- seedInitialMessage (useBotSimulation.ts lines 563-571): when the
seeding latch is clear, generate one message; when one is produced the
buffer is replaced by it alone; the latch is then set. -/
def seedInitialMessage (catalog : List MessageTemplate) (s : LoopState)
    (env : StepEnv) : LoopState :=
  if s.hasSeeded then s
  else
    let g := generateMessage catalog s.recent env.gen.slot env.gen.pref
      env.gen.regime env.gen.session env.pick
    match g.1 with
    | some t =>
      { s with messages := [t.id], recent := g.2, hasSeeded := true }
    | none => { s with recent := g.2, hasSeeded := true }

/-- Enable transition (useBotSimulation.ts lines 556-595): set active,
reset burst/calm counters and interval history, seed one immediate
message, then arm the first timeout. -/
def enableStep (cfg : BotTimingConfig) (catalog : List MessageTemplate)
    (s : LoopState) (env : StepEnv) : LoopState :=
  let s1 := { s with enabled := true, cancelled := false,
                     sched := ⟨0, 0, []⟩ }
  scheduleNext cfg (seedInitialMessage catalog s1 env) env

/-- Timer-fire transition: the armed timeout's callback runs pushMessage
(useBotSimulation.ts lines 573-583: bail out when cancelled, otherwise
generate and append with slice(-50)) and then scheduleNext. -/
def fireStep (cfg : BotTimingConfig) (catalog : List MessageTemplate)
    (s : LoopState) (env : StepEnv) : LoopState :=
  let s0 := { s with pending := none }
  if s0.cancelled then s0
  else scheduleNext cfg (pushStep catalog s0 env) env

/-- One step of the useBotSimulation loop: the hosting component disables
(or unmounts), enables, or an armed timeout fires. -/
inductive Step (cfg : BotTimingConfig) (catalog : List MessageTemplate) :
    LoopState → LoopState → Prop
  | disable (s : LoopState) : s.enabled = true → Step cfg catalog s (disableStep s)
  | enable (s : LoopState) (env : StepEnv) : s.enabled = false →
      Step cfg catalog s (enableStep cfg catalog s env)
  | fire (s : LoopState) (env : StepEnv) (i : ℕ) (d : ℚ) :
      s.pending = some (i, d) → Step cfg catalog s (fireStep cfg catalog s env)

/-- Steps that can occur while the controller is never re-enabled: disable
(idempotent teardown) and timer fires. -/
inductive StepNE (cfg : BotTimingConfig) (catalog : List MessageTemplate) :
    LoopState → LoopState → Prop
  | disable (s : LoopState) : s.enabled = true → StepNE cfg catalog s (disableStep s)
  | fire (s : LoopState) (env : StepEnv) (i : ℕ) (d : ℚ) :
      s.pending = some (i, d) → StepNE cfg catalog s (fireStep cfg catalog s env)

end BotSim

namespace SmartAlerts

/-- Observable state of the useSmartAlerts scheduling loop. -/
structure LoopState where
  enabled : Bool
  cancelled : Bool
  pending : Option (ℕ × ℚ)
  timerSeq : ℕ
  alerts : List String
  usage : List (String × ℤ)
  lastPriority : Priority
  sched : SchedState

/-- Inputs a single alert-loop step reads from the environment. -/
structure StepEnv where
  hour : ℕ
  ctx : AlertContext
  now : ℤ
  pick : ℚ
  tape : RandomTape

/-- Disable transition: the scheduling effect's cleanup and its
enabled=false branch (useSmartAlerts.ts lines 572-579 and 611-617) set the
cancelled flag and clear the timeout, and the enabled-reset effect (lines
276-281) empties the alert buffer and clears the template-usage map. -/
def disableStep (s : LoopState) : LoopState :=
  { s with enabled := false, cancelled := true, pending := none,
           alerts := [], usage := [] }

/-- scheduleNext (useSmartAlerts.ts lines 596-603). -/
def scheduleNext (cfg : AlertTimingConfig) (s : LoopState) (env : StepEnv) :
    LoopState :=
  if s.cancelled then s
  else
    let c := computeNextInterval cfg env.hour env.ctx s.lastPriority s.sched env.tape
    { s with sched := c.2.1, pending := some (s.timerSeq, c.1),
             timerSeq := s.timerSeq + 1 }

/-- Helper of fireStep: the buffer/usage update of one emitAlert call
(useSmartAlerts.ts lines 586-594), including the lastPriority record made
by generateAlert. -/
def emitStep (catalog : List AlertTemplate) (s : LoopState) (env : StepEnv) :
    LoopState :=
  let g := generateAlert catalog s.usage env.now env.ctx env.pick
  match g.1 with
  | some t =>
    { s with alerts := emitAlert s.alerts (some t.id), usage := g.2,
             lastPriority := t.priority }
  | none => { s with usage := g.2 }

/-- Enable transition (useSmartAlerts.ts lines 572-609): reset burst/calm
counters and interval history, then arm the first timeout with delay
max(6000, computed interval).  No alert is emitted here. -/
def enableStep (cfg : AlertTimingConfig) (s : LoopState) (env : StepEnv) :
    LoopState :=
  let s1 := { s with enabled := true, cancelled := false,
                     sched := ⟨0, 0, []⟩ }
  let c := computeNextInterval cfg env.hour env.ctx s1.lastPriority s1.sched env.tape
  { s1 with sched := c.2.1, pending := some (s1.timerSeq, max 6000 c.1),
            timerSeq := s1.timerSeq + 1 }

/-- Timer-fire transition: emitAlert (useSmartAlerts.ts lines 586-594:
bail out when cancelled, otherwise generate and append with slice(-3),
recording the emitted priority) followed by scheduleNext. -/
def fireStep (cfg : AlertTimingConfig) (catalog : List AlertTemplate)
    (s : LoopState) (env : StepEnv) : LoopState :=
  let s0 := { s with pending := none }
  if s0.cancelled then s0
  else scheduleNext cfg (emitStep catalog s0 env) env

/-- One step of the useSmartAlerts loop. -/
inductive Step (cfg : AlertTimingConfig) (catalog : List AlertTemplate) :
    LoopState → LoopState → Prop
  | disable (s : LoopState) : s.enabled = true → Step cfg catalog s (disableStep s)
  | enable (s : LoopState) (env : StepEnv) : s.enabled = false →
      Step cfg catalog s (enableStep cfg s env)
  | fire (s : LoopState) (env : StepEnv) (i : ℕ) (d : ℚ) :
      s.pending = some (i, d) → Step cfg catalog s (fireStep cfg catalog s env)

/-- Steps that can occur while the controller is never re-enabled. -/
inductive StepNE (cfg : AlertTimingConfig) (catalog : List AlertTemplate) :
    LoopState → LoopState → Prop
  | disable (s : LoopState) : s.enabled = true → StepNE cfg catalog s (disableStep s)
  | fire (s : LoopState) (env : StepEnv) (i : ℕ) (d : ℚ) :
      s.pending = some (i, d) → StepNE cfg catalog s (fireStep cfg catalog s env)

end SmartAlerts

/-! ## Claim theorems -/

/-- C10: for every Date (every UTC hour 0-23) exactly one of the six
session windows of SESSION_WINDOWS matches (the windows partition the 24
UTC hours, asia_open wrapping past midnight), so the loop of
getUtcSessionSlot always returns from inside and the trailing asia_mid
fallback is unreachable. -/
theorem getUtcSessionSlot_partition :
    ∀ hour : ℕ, hour < 24 →
      (SESSION_WINDOWS.filter fun w => windowMatches w hour).length = 1 ∧
      (getUtcSessionSlotLoop hour).isSome = true := by
  decide

/-- Witness for C10 at the concrete hour 22. -/
theorem getUtcSessionSlot_partition_witness :
    22 < 24 ∧
      ((SESSION_WINDOWS.filter fun w => windowMatches w 22).length = 1 ∧
        (getUtcSessionSlotLoop 22).isSome = true) :=
  ⟨by decide, getUtcSessionSlot_partition 22 (by decide)⟩

/-- A reverse/take characterization of the last-n-entries operation. -/
theorem lastN_eq_reverse (n : ℕ) (l : List α) :
    lastN n l = (l.reverse.take n).reverse := by
  have h := List.reverse_take (l := l.reverse) (n := n)
  simp at h
  simpa [lastN] using h.symm

/-- Taking n of an append ignores entries of the tail beyond n. -/
theorem take_append_take (n : ℕ) (a b : List α) :
    (a ++ b.take n).take n = (a ++ b).take n := by
  rw [List.take_append_eq_append_take, List.take_append_eq_append_take,
    List.take_take]
  congr 2
  omega

/-- Keeping the last n entries before appending does not change the last n
entries of the result. -/
theorem lastN_append_lastN (n : ℕ) (l s : List α) :
    lastN n (lastN n l ++ s) = lastN n (l ++ s) := by
  rw [lastN_eq_reverse, lastN_eq_reverse, lastN_eq_reverse]
  simp only [List.reverse_append, List.reverse_reverse]
  rw [take_append_take]

/-- Length of the last-n-entries operation. -/
theorem lastN_length (n : ℕ) (l : List α) :
    (lastN n l).length = min n l.length := by
  simp [lastN]; omega

/-- pushMessage appends and keeps the last 50 entries. -/
theorem pushMessage_some (buf : List String) (x : String) :
    BotSim.pushMessage buf (some x) = lastN 50 (buf ++ [x]) := by
  simp [BotSim.pushMessage, jsSliceFrom, lastN]

/-- emitAlert appends and keeps the last 3 entries. -/
theorem emitAlert_some (buf : List String) (x : String) :
    SmartAlerts.emitAlert buf (some x) = lastN 3 (buf ++ [x]) := by
  simp [SmartAlerts.emitAlert, SmartAlerts.MAX_ALERTS, jsSliceFrom, lastN]

/-- Folding appends that keep the last n entries computes the last n
entries of everything appended. -/
theorem foldl_lastN (n : ℕ) (es : List α) :
    ∀ buf : List α, buf.length ≤ n →
      es.foldl (fun b e => lastN n (b ++ [e])) buf = lastN n (buf ++ es) := by
  induction es with
  | nil =>
    intro buf h
    simp [lastN, Nat.sub_eq_zero_of_le h]
  | cons e es ih =>
    intro buf h
    have hlen : (lastN n (buf ++ [e])).length ≤ n := by
      rw [lastN_length]; omega
    calc (e :: es).foldl (fun b e => lastN n (b ++ [e])) buf
        = es.foldl (fun b e => lastN n (b ++ [e])) (lastN n (buf ++ [e])) := rfl
      _ = lastN n (lastN n (buf ++ [e]) ++ es) := ih _ hlen
      _ = lastN n ((buf ++ [e]) ++ es) := lastN_append_lastN n _ _
      _ = lastN n (buf ++ e :: es) := by simp

/-- C5: for every sequence of emissions the bot activity buffer (capacity
50) and the alert buffer (capacity 3) hold exactly the last capacity-many
emitted entries (oldest evicted first, FIFO), hence never exceed capacity,
and once more than capacity-many events have been emitted the length stays
exactly at capacity. -/
theorem buffers_bounded_fifo (es fs : List String) :
    es.foldl (fun b e => BotSim.pushMessage b (some e)) [] = lastN 50 es ∧
    (es.foldl (fun b e => BotSim.pushMessage b (some e)) []).length =
      min 50 es.length ∧
    (50 ≤ es.length →
      (es.foldl (fun b e => BotSim.pushMessage b (some e)) []).length = 50) ∧
    fs.foldl (fun b a => SmartAlerts.emitAlert b (some a)) [] = lastN 3 fs ∧
    (fs.foldl (fun b a => SmartAlerts.emitAlert b (some a)) []).length =
      min 3 fs.length ∧
    (3 ≤ fs.length →
      (fs.foldl (fun b a => SmartAlerts.emitAlert b (some a)) []).length = 3) := by
  have h50 : es.foldl (fun b e => BotSim.pushMessage b (some e)) [] = lastN 50 es := by
    simp only [pushMessage_some]
    simpa using foldl_lastN 50 es [] (by simp)
  have h3 : fs.foldl (fun b a => SmartAlerts.emitAlert b (some a)) [] = lastN 3 fs := by
    simp only [emitAlert_some]
    simpa using foldl_lastN 3 fs [] (by simp)
  refine ⟨h50, ?_, ?_, h3, ?_, ?_⟩
  · rw [h50, lastN_length]
  · intro h
    rw [h50, lastN_length]
    omega
  · rw [h3, lastN_length]
  · intro h
    rw [h3, lastN_length]
    omega

/-- Witness for C5: 55 events pushed into the 50-capacity activity buffer
leave exactly 50, and 5 alerts pushed into the 3-capacity alert buffer
leave exactly 3. -/
theorem buffers_bounded_fifo_witness :
    ((List.replicate 55 "m").foldl
       (fun b e => BotSim.pushMessage b (some e)) []).length = 50 ∧
    ((List.replicate 5 "a").foldl
       (fun b a => SmartAlerts.emitAlert b (some a)) []).length = 3 :=
  ⟨(buffers_bounded_fifo (List.replicate 55 "m") (List.replicate 5 "a")).2.2.1
      (by simp),
   (buffers_bounded_fifo (List.replicate 55 "m") (List.replicate 5 "a")).2.2.2.2.2
      (by simp)⟩

/-- C3: whenever the candidate set after affinity filtering and recent-use
removal is empty, each generator clears its entire recent-use memory,
returns the no-event result (no exception exists: the function is total),
and the scheduling loop appends nothing to the UI buffer on that tick. -/
theorem exhaustion_clears_and_skips
    (catalog : List BotSim.MessageTemplate) (recent : List String)
    (slot : TimeOfDaySlot) (pref : BotSim.MarketConditionPreference)
    (regime : MarketRegime) (session : SessionSlot) (r : ℚ)
    (buf : List String)
    (acatalog : List SmartAlerts.AlertTemplate) (usage : List (String × ℤ))
    (now : ℤ) (ctx : SmartAlerts.AlertContext) (r2 : ℚ) (abuf : List String)
    (hbot : BotSim.getFilteredTemplates catalog recent slot pref = [])
    (halert : SmartAlerts.eligibleAlerts acatalog usage now ctx = []) :
    BotSim.generateMessage catalog recent slot pref regime session r = (none, []) ∧
    BotSim.pushMessage buf none = buf ∧
    SmartAlerts.generateAlert acatalog usage now ctx r2 = (none, []) ∧
    SmartAlerts.emitAlert abuf none = abuf := by
  refine ⟨?_, rfl, ?_, rfl⟩
  · simp [BotSim.generateMessage, hbot]
  · simp [SmartAlerts.generateAlert, halert]

/-- Witness for C3: a one-template catalog whose template is already in
the recent-use memory, and a one-template alert catalog whose template was
used a millisecond ago. -/
theorem exhaustion_clears_and_skips_witness :
    BotSim.generateMessage
        [⟨"t1", .market_scanning, "scanning", .low, none, none⟩]
        ["t1"] .morning .stable .bull .asia_open 0 = (none, []) ∧
      BotSim.pushMessage ["m"] none = ["m"] ∧
      SmartAlerts.generateAlert
        [⟨"a1", .marketVolatility, "vol", .low, none⟩]
        [("a1", 999)] 1000 ⟨.medium, .sideways, .positive,
          false, false, false, false, false, false⟩ 0 = (none, []) ∧
      SmartAlerts.emitAlert ["a"] none = ["a"] :=
  exhaustion_clears_and_skips _ _ _ _ _ _ _ _ _ _ _ _ _ _
    (by decide) (by decide)

/-- The random stream is unchanged by applyWindowMultiplier (only the
cursor advances). -/
theorem applyWindowMultiplier_stream (rem : ℕ) (cfgw : IntervalWindowConfig)
    (t : RandomTape) :
    ((applyWindowMultiplier rem cfgw t).2.2).stream = t.stream := by
  simp only [applyWindowMultiplier, RandomTape.next]
  split_ifs <;> rfl

/-- Lower bound of the clamp-then-break tail of both computeNextInterval
functions: with a nonnegative regularity-breaker draw the result is at
least three quarters of the clamp floor. -/
theorem clamp_breaker_lower (A minI s w : ℚ) (hmin : 0 ≤ minI) (hs : 0 ≤ s)
    (hw : 0 ≤ w) (c : Prop) [Decidable c] :
    0.75 * minI ≤ if c then max A minI * (0.75 + s * w) else max A minI := by
  have h1 : minI ≤ max A minI := le_max_right _ _
  have hnn : (0 : ℚ) ≤ max A minI := le_trans hmin h1
  split_ifs
  · have h2 : (0.75 : ℚ) ≤ 0.75 + s * w := by nlinarith
    calc (0.75 : ℚ) * minI = minI * 0.75 := by ring
      _ ≤ max A minI * (0.75 + s * w) := mul_le_mul h1 h2 (by norm_num) hnn
  · linarith

/-- Configuration exhibiting the interval-floor violation: every
configurable multiplier 1, burst and calm trigger probability 0, variance
0, baseInterval 1000 and minInterval 1000. -/
def floorCfg : BotSim.BotTimingConfig where
  baseInterval := 1000
  variance := 0
  minInterval := 1000
  maxConsistentIntervals := 3
  burst := ⟨0, 2, 4, 0.15, 0.45⟩
  calm := ⟨0, 2, 3, 1.4, 2.2⟩
  timeOfDayMultipliers := fun _ => 1
  highVolatility := 1
  lowVolatility := 1
  trending := 1
  sideways := 1

/-- Context for the interval-floor violation. -/
def floorCtx : BotSim.IntervalContext := ⟨0, .medium, .up, .asia_open, .bull⟩

/-- Counterexample to C1: with floorCfg, an all-zero random stream and the
clean scheduling state of an enable, the first two computed delays are
clamped to minInterval = 1000, which makes the interval history consistent,
so the third call fires the regularity breaker after the clamp and returns
750 < minInterval.  The computed delay is therefore not always at least
minInterval. -/
theorem interval_floor_counterexample :
    BotSim.runIntervals floorCfg floorCtx 3 ⟨0, 0, []⟩ ⟨fun _ => 0, 0⟩ =
      [1000, 1000, 750] ∧ (750 : ℚ) < floorCfg.minInterval := by
  constructor
  · norm_num [BotSim.runIntervals, BotSim.computeNextInterval,
      applyWindowMultiplier, RandomTape.next, randomBetween, randomIntBetween,
      getSessionTempoFactor, getRegimeTempoFactor, SESSION_TEMPO_BOUNDS,
      REGIME_TEMPO_BOUNDS, getTimeOfDaySlot, pushHistory, jsSliceFrom,
      floorCfg, floorCtx, max_def]
  · norm_num [floorCfg]

/-- C1 amended: for every timing configuration with a nonnegative
minInterval, every scheduler state and every random stream in [0,1), the
delay returned by computeNextInterval (both hooks) is at least
0.75 × minInterval; the unweakened floor holds for the clamped value but
the regularity breaker runs after the clamp and can scale it by as little
as 0.75. -/
theorem interval_floor_amended (cfg : BotSim.BotTimingConfig)
    (ctx : BotSim.IntervalContext) (st : SchedState) (r : RandomTape)
    (acfg : SmartAlerts.AlertTimingConfig) (hour : ℕ)
    (actx : SmartAlerts.AlertContext) (p : Priority) (ast : SchedState)
    (ar : RandomTape)
    (hr : UnitStream r.stream) (har : UnitStream ar.stream)
    (hmin : 0 ≤ cfg.minInterval) (hamin : 0 ≤ acfg.minInterval) :
    0.75 * cfg.minInterval ≤ (BotSim.computeNextInterval cfg ctx st r).1 ∧
    0.75 * acfg.minInterval ≤
      (SmartAlerts.computeNextInterval acfg hour actx p ast ar).1 := by
  constructor
  · simp only [BotSim.computeNextInterval, RandomTape.next,
      applyWindowMultiplier_stream]
    exact clamp_breaker_lower _ _ _ _ hmin (hr _).1 (by norm_num) _
  · simp only [SmartAlerts.computeNextInterval, RandomTape.next,
      applyWindowMultiplier_stream]
    exact clamp_breaker_lower _ _ _ _ hamin (har _).1 (by norm_num) _

/-- Witness for the amended C1 at the default configurations, a clean
scheduling state and the all-zero random stream. -/
theorem interval_floor_amended_witness :
    0.75 * BotSim.DEFAULT_BOT_TIMING.minInterval ≤
      (BotSim.computeNextInterval BotSim.DEFAULT_BOT_TIMING
        ⟨0, .medium, .up, .asia_open, .bull⟩ ⟨0, 0, []⟩ ⟨fun _ => 0, 0⟩).1 ∧
    0.75 * SmartAlerts.DEFAULT_ALERT_TIMING.minInterval ≤
      (SmartAlerts.computeNextInterval SmartAlerts.DEFAULT_ALERT_TIMING 0
        ⟨.medium, .sideways, .positive, false, false, false, false, false, false⟩
        .medium ⟨0, 0, []⟩ ⟨fun _ => 0, 0⟩).1 :=
  interval_floor_amended _ _ _ _ _ _ _ _ _ _
    (fun n => by norm_num) (fun n => by norm_num)
    (by norm_num [BotSim.DEFAULT_BOT_TIMING])
    (by norm_num [SmartAlerts.DEFAULT_ALERT_TIMING])

/-- With a nonnegative draw and trigger probability 0, an inactive
burst/calm window stays inactive and contributes multiplier 1. -/
theorem applyWindowMultiplier_inactive (cfgw : IntervalWindowConfig)
    (t : RandomTape) (h0 : ¬ (t.stream t.idx < cfgw.probability)) :
    applyWindowMultiplier 0 cfgw t = (1, 0, ⟨t.stream, t.idx + 1⟩) := by
  simp [applyWindowMultiplier, RandomTape.next, h0]

/-- The scenario configuration of spec section 8: baseInterval 12000,
variance 0, minInterval 800, every configurable multiplier forced to 1 and
burst/calm trigger probabilities 0 (stated on the alert hook, whose
multipliers are all configurable). -/
def exactCfg : SmartAlerts.AlertTimingConfig where
  baseInterval := 12000
  variance := 0
  minInterval := 800
  maxConsistentIntervals := 3
  burst := ⟨0, 2, 3, 0.25, 0.6⟩
  calm := ⟨0, 2, 3, 1.8, 2.6⟩
  timeOfDayMultipliers := fun _ => 1
  volatilityHigh := 1
  volatilityLow := 1
  trendTrending := 1
  trendSideways := 1
  accelExecution := 1
  accelRisk := 1
  accelPortfolio := 1
  accelNews := 1
  accelUser := 1
  accelArbitrage := 1
  priorityOffsets := fun _ => 1

/-- Condition under which the regularity breaker fires in the exactCfg
scenario: at least maxConsistentIntervals - 1 = 2 recorded intervals, all
within 5 percent (600) of the clamped value 12000. -/
def consistentHistory (hist : List ℚ) : Prop :=
  2 ≤ hist.length ∧ ∀ v ∈ hist, |v - 12000| ≤ 600

/-- The breaker condition as computed by the code equals
consistentHistory. -/
theorem consistent_iff (hist : List ℚ) :
    ((hist.length : ℤ) ≥ ((3 : ℕ) : ℤ) - 1 ∧
        ∀ v ∈ hist, |v - 12000| ≤ 12000 * 0.05) ↔ consistentHistory hist := by
  unfold consistentHistory
  constructor <;> rintro ⟨h1, h2⟩ <;> refine ⟨?_, fun v hv => ?_⟩
  · push_cast at h1; omega
  · have := h2 v hv; norm_num at this ⊢; exact this
  · push_cast; omega
  · have := h2 v hv; norm_num at this ⊢; exact this

/-- In the exactCfg scenario a call whose history is not yet consistent
returns exactly 12000 and consumes three draws. -/
theorem exact_step_stable (hour : ℕ) (ctx : SmartAlerts.AlertContext)
    (p : Priority) (st : SchedState) (r : RandomTape)
    (hr : UnitStream r.stream) (hb : st.burst = 0) (hc : st.calm = 0)
    (hcons : ¬ consistentHistory st.history) :
    SmartAlerts.computeNextInterval exactCfg hour ctx p st r =
      (12000, ⟨0, 0, pushHistory 3 st.history 12000⟩,
        ⟨r.stream, r.idx + 3⟩) := by
  have hb1 : applyWindowMultiplier st.burst exactCfg.burst ⟨r.stream, r.idx + 1⟩ =
      (1, 0, ⟨r.stream, r.idx + 2⟩) := by
    rw [hb]
    exact applyWindowMultiplier_inactive _ _ (by
      simpa [exactCfg] using (hr (r.idx + 1)).1)
  have hc1 : applyWindowMultiplier st.calm exactCfg.calm ⟨r.stream, r.idx + 2⟩ =
      (1, 0, ⟨r.stream, r.idx + 3⟩) := by
    rw [hc]
    exact applyWindowMultiplier_inactive _ _ (by
      simpa [exactCfg] using (hr (r.idx + 2)).1)
  have hng : ¬ ((st.history.length : ℤ) ≥ ((3 : ℕ) : ℤ) - 1 ∧
      ∀ v ∈ st.history, |v - 12000| ≤ 12000 * 0.05) := fun h =>
    hcons ((consistent_iff st.history).1 h)
  have hmax : ((12000 : ℚ) ⊔ 800) = 12000 := max_eq_left (by norm_num)
  simp only [SmartAlerts.computeNextInterval, RandomTape.next, hb1, hc1]
  rcases ctx.volatility <;>
    simp only [exactCfg, mul_one, mul_zero, sub_zero, add_zero, zero_mul,
      ite_self] <;>
    rw [hmax, if_neg hng, if_neg hng]

/-- In the exactCfg scenario a call whose history is consistent fires the
regularity breaker and returns 12000 scaled by 0.75 plus 0.45 times the
breaker draw. -/
theorem exact_step_break (hour : ℕ) (ctx : SmartAlerts.AlertContext)
    (p : Priority) (st : SchedState) (r : RandomTape)
    (hr : UnitStream r.stream) (hb : st.burst = 0) (hc : st.calm = 0)
    (hcons : consistentHistory st.history) :
    SmartAlerts.computeNextInterval exactCfg hour ctx p st r =
      (12000 * (0.75 + r.stream (r.idx + 3) * 0.45),
        ⟨0, 0, pushHistory 3 st.history
          (12000 * (0.75 + r.stream (r.idx + 3) * 0.45))⟩,
        ⟨r.stream, r.idx + 4⟩) := by
  have hb1 : applyWindowMultiplier st.burst exactCfg.burst ⟨r.stream, r.idx + 1⟩ =
      (1, 0, ⟨r.stream, r.idx + 2⟩) := by
    rw [hb]
    exact applyWindowMultiplier_inactive _ _ (by
      simpa [exactCfg] using (hr (r.idx + 1)).1)
  have hc1 : applyWindowMultiplier st.calm exactCfg.calm ⟨r.stream, r.idx + 2⟩ =
      (1, 0, ⟨r.stream, r.idx + 3⟩) := by
    rw [hc]
    exact applyWindowMultiplier_inactive _ _ (by
      simpa [exactCfg] using (hr (r.idx + 2)).1)
  have hps : (st.history.length : ℤ) ≥ ((3 : ℕ) : ℤ) - 1 ∧
      ∀ v ∈ st.history, |v - 12000| ≤ 12000 * 0.05 :=
    (consistent_iff st.history).2 hcons
  have hmax : ((12000 : ℚ) ⊔ 800) = 12000 := max_eq_left (by norm_num)
  simp only [SmartAlerts.computeNextInterval, RandomTape.next, hb1, hc1]
  rcases ctx.volatility <;>
    simp only [exactCfg, mul_one, mul_zero, sub_zero, add_zero, zero_mul,
      ite_self] <;>
    rw [hmax, if_pos hps, if_pos hps]

/-- Context with no active event flags (event accelerators do not fire). -/
def exactCtx : SmartAlerts.AlertContext :=
  ⟨.medium, .sideways, .positive, false, false, false, false, false, false⟩

/-- Counterexample to C6: in the exact scenario configuration with an
all-zero random stream, the first two calls return 12000 but the third
call fires the regularity breaker (the clamped value 12000 is within 5
percent of both recorded intervals) and returns 9000, not 12000. -/
theorem exact_interval_counterexample :
    SmartAlerts.runIntervals exactCfg 0 exactCtx .medium 3 ⟨0, 0, []⟩
      ⟨fun _ => 0, 0⟩ = [12000, 12000, 9000] ∧ (9000 : ℚ) ≠ 12000 := by
  constructor
  · norm_num [SmartAlerts.runIntervals, SmartAlerts.computeNextInterval,
      applyWindowMultiplier, RandomTape.next, randomBetween, randomIntBetween,
      getTimeOfDaySlot, pushHistory, jsSliceFrom, exactCfg, exactCtx, max_def]
  · norm_num

/-- C6 amended: in the exact scenario configuration (all configurable
multipliers 1, burst/calm trigger probability 0, burst/calm counters 0)
every call whose interval history is not yet consistent returns exactly
12000 — in particular the first maxConsistentIntervals - 1 = 2 calls always
do — but once the history is consistent the regularity breaker fires and
the call returns 12000 × (0.75 + 0.45 × draw) instead of 12000. -/
theorem exact_interval_amended (hour : ℕ) (ctx : SmartAlerts.AlertContext)
    (p : Priority) (st : SchedState) (r : RandomTape)
    (hr : UnitStream r.stream) (hb : st.burst = 0) (hc : st.calm = 0) :
    (¬ consistentHistory st.history →
      (SmartAlerts.computeNextInterval exactCfg hour ctx p st r).1 = 12000) ∧
    (consistentHistory st.history →
      (SmartAlerts.computeNextInterval exactCfg hour ctx p st r).1 =
        12000 * (0.75 + r.stream (r.idx + 3) * 0.45)) ∧
    SmartAlerts.runIntervals exactCfg hour ctx p 2 ⟨0, 0, []⟩ r =
      [12000, 12000] := by
  refine ⟨fun h => by rw [exact_step_stable hour ctx p st r hr hb hc h],
    fun h => by rw [exact_step_break hour ctx p st r hr hb hc h], ?_⟩
  have hph : pushHistory 3 ([] : List ℚ) 12000 = [12000] := by
    norm_num [pushHistory, jsSliceFrom]
  have hnc0 : ¬ consistentHistory ([] : List ℚ) := by simp [consistentHistory]
  have hnc1 : ¬ consistentHistory [(12000 : ℚ)] := by simp [consistentHistory]
  have h1 := exact_step_stable hour ctx p ⟨0, 0, []⟩ r hr rfl rfl hnc0
  rw [hph] at h1
  have h2 := exact_step_stable hour ctx p ⟨0, 0, [12000]⟩
    ⟨r.stream, r.idx + 3⟩ hr rfl rfl hnc1
  show SmartAlerts.runIntervals exactCfg hour ctx p (1 + 1) ⟨0, 0, []⟩ r =
    [12000, 12000]
  simp only [SmartAlerts.runIntervals, h1, h2]

/-- Witness for the amended C6 at concrete inputs: clean state and the
all-zero random stream. -/
theorem exact_interval_amended_witness :
    (¬ consistentHistory (SchedState.mk 0 0 []).history →
      (SmartAlerts.computeNextInterval exactCfg 0 exactCtx .medium ⟨0, 0, []⟩
        ⟨fun _ => 0, 0⟩).1 = 12000) ∧
    (consistentHistory (SchedState.mk 0 0 []).history →
      (SmartAlerts.computeNextInterval exactCfg 0 exactCtx .medium ⟨0, 0, []⟩
        ⟨fun _ => 0, 0⟩).1 = 12000 * (0.75 + 0 * 0.45)) ∧
    SmartAlerts.runIntervals exactCfg 0 exactCtx .medium 2 ⟨0, 0, []⟩
      ⟨fun _ => 0, 0⟩ = [12000, 12000] :=
  exact_interval_amended 0 exactCtx .medium ⟨0, 0, []⟩ ⟨fun _ => 0, 0⟩
    (fun n => by norm_num) rfl rfl

/-- Counting occurrences in a pool built by repeating each entry of a list
a per-entry number of times. -/
theorem count_flatMap_replicate (w : α → ℕ) [DecidableEq α] (l : List α) (t : α) :
    (l.flatMap fun x => List.replicate (w x) x).count t = l.count t * w t := by
  induction l with
  | nil => simp
  | cons a l ih =>
    simp only [List.flatMap_cons, List.count_append, ih, List.count_cons]
    rcases eq_or_ne a t with h | h
    · subst h
      simp [List.count_replicate]
      ring
    · simp [List.count_replicate, h, Ne.symm h]

/-- The floor-of-scaled-draw index equals k exactly when the scaled draw
lies in [k, k + 1). -/
theorem floor_toNat_of_bounds (x : ℚ) (k : ℕ) (hlo : (k : ℚ) ≤ x)
    (hhi : x < k + 1) : (⌊x⌋).toNat = k := by
  have : ⌊x⌋ = (k : ℤ) := by
    rw [Int.floor_eq_iff]
    constructor
    · exact_mod_cast hlo
    · push_cast
      exact_mod_cast hhi
  rw [this]
  simp

/-- C7: for a duplicate-free candidate set, the weighted pool of
generateMessage contains each candidate exactly
max(1, round(priorityWeight × regimeWeight × sessionWeight)) times
(weightFor; priorityWeight is 3/2/1 for high/medium/low and the regime and
session weights default to 1 for unlisted categories), the selected entry
is the pool entry at index floor(r × pool.length) — so each pool index is
drawn on an r-interval of equal width 1/pool.length, a uniform draw over
the pool — and filtering a duplicate-free catalog keeps the candidate set
duplicate-free. -/
theorem weighted_pool_uniform (candidates : List BotSim.MessageTemplate)
    (regime : MarketRegime) (session : SessionSlot)
    (t : BotSim.MessageTemplate)
    (catalog : List BotSim.MessageTemplate) (recent : List String)
    (slot : TimeOfDaySlot) (pref : BotSim.MarketConditionPreference)
    (k : ℕ) (r : ℚ)
    (hnd : candidates.Nodup) (hmem : t ∈ candidates)
    (hlo : (k : ℚ) ≤ r * ((BotSim.buildWeightedPool candidates regime session).length : ℚ))
    (hhi : r * ((BotSim.buildWeightedPool candidates regime session).length : ℚ) < k + 1) :
    (BotSim.buildWeightedPool candidates regime session).count t =
      BotSim.weightFor regime session t ∧
    (BotSim.buildWeightedPool candidates regime session).get?
        (⌊r * ((BotSim.buildWeightedPool candidates regime session).length : ℚ)⌋).toNat =
      (BotSim.buildWeightedPool candidates regime session).get? k ∧
    (catalog.Nodup → (BotSim.getFilteredTemplates catalog recent slot pref).Nodup) := by
  refine ⟨?_, ?_, fun h => h.filter _⟩
  · rw [BotSim.buildWeightedPool, count_flatMap_replicate,
      List.count_eq_one_of_mem hnd hmem, one_mul]
  · rw [floor_toNat_of_bounds _ k hlo hhi]

/-- High-priority trade-execution template for the C7 witness; under the
bull regime and the us_open session its combined weight is
max(1, round(3 × 1.4 × 1.3)) = 5. -/
def wtA : BotSim.MessageTemplate := ⟨"exec1", .trade_execution, "buy", .high, none, none⟩

/-- Low-priority market-scanning template for the C7 witness; weight
max(1, round(1 × 1 × 1)) = 1. -/
def wtB : BotSim.MessageTemplate := ⟨"scan1", .market_scanning, "scan", .low, none, none⟩

/-- Concrete evaluation of the weighted pool of the C7 witness. -/
theorem pool_eval : BotSim.buildWeightedPool [wtA, wtB] .bull .us_open =
    [wtA, wtA, wtA, wtA, wtA, wtB] := by
  norm_num [BotSim.buildWeightedPool, BotSim.weightFor, wtA, wtB, jsRound,
    BotSim.priorityWeight, BotSim.REGIME_CATEGORY_WEIGHTS,
    BotSim.SESSION_CATEGORY_WEIGHTS, max_def, Int.floor_eq_iff,
    List.replicate]

/-- Witness for C7 at the concrete two-template candidate set with pool
[wtA × 5, wtB] and draw r = 0.9 selecting index 5. -/
theorem weighted_pool_uniform_witness :
    (BotSim.buildWeightedPool [wtA, wtB] .bull .us_open).count wtA =
      BotSim.weightFor .bull .us_open wtA ∧
    (BotSim.buildWeightedPool [wtA, wtB] .bull .us_open).get?
        (⌊(0.9 : ℚ) * ((BotSim.buildWeightedPool [wtA, wtB] .bull .us_open).length : ℚ)⌋).toNat =
      (BotSim.buildWeightedPool [wtA, wtB] .bull .us_open).get? 5 ∧
    ([wtA, wtB].Nodup →
      (BotSim.getFilteredTemplates [wtA, wtB] [] .morning .stable).Nodup) :=
  weighted_pool_uniform [wtA, wtB] .bull .us_open wtA [wtA, wtB] [] .morning
    .stable 5 0.9 (by decide) (by decide)
    (by rw [pool_eval]; norm_num)
    (by rw [pool_eval]; norm_num)

/-- A no-re-enable step of the bot loop from a state with no armed timer
keeps the timer unarmed and the message buffer unchanged. -/
theorem botNE_preserves (cfg : BotSim.BotTimingConfig)
    (catalog : List BotSim.MessageTemplate) {a b : BotSim.LoopState}
    (h : BotSim.StepNE cfg catalog a b) (hp : a.pending = none) :
    b.pending = none ∧ b.messages = a.messages := by
  cases h with
  | disable hs => exact ⟨rfl, rfl⟩
  | fire env i d hpend =>
    rw [hp] at hpend
    cases hpend

/-- Any number of no-re-enable bot-loop steps from a state with no armed
timer keeps the timer unarmed and the message buffer unchanged. -/
theorem botNE_rtg (cfg : BotSim.BotTimingConfig)
    (catalog : List BotSim.MessageTemplate) {a b : BotSim.LoopState}
    (h : Relation.ReflTransGen (BotSim.StepNE cfg catalog) a b)
    (ha : a.pending = none) : b.pending = none ∧ b.messages = a.messages := by
  induction h with
  | refl => exact ⟨ha, rfl⟩
  | tail hab hbc ih =>
    obtain ⟨hp, hm⟩ := ih
    obtain ⟨hp2, hm2⟩ := botNE_preserves cfg catalog hbc hp
    exact ⟨hp2, hm2.trans hm⟩

/-- A no-re-enable step of the alert loop from a state with no armed timer
and an empty alert buffer keeps both. -/
theorem alertNE_preserves (cfg : SmartAlerts.AlertTimingConfig)
    (catalog : List SmartAlerts.AlertTemplate) {a b : SmartAlerts.LoopState}
    (h : SmartAlerts.StepNE cfg catalog a b) (hp : a.pending = none)
    (hal : a.alerts = []) :
    b.pending = none ∧ b.alerts = [] := by
  cases h with
  | disable hs => exact ⟨rfl, rfl⟩
  | fire env i d hpend =>
    rw [hp] at hpend
    cases hpend

/-- Any number of no-re-enable alert-loop steps from a state with no armed
timer and an empty alert buffer keeps both. -/
theorem alertNE_rtg (cfg : SmartAlerts.AlertTimingConfig)
    (catalog : List SmartAlerts.AlertTemplate) {a b : SmartAlerts.LoopState}
    (h : Relation.ReflTransGen (SmartAlerts.StepNE cfg catalog) a b)
    (ha : a.pending = none) (hal : a.alerts = []) :
    b.pending = none ∧ b.alerts = [] := by
  induction h with
  | refl => exact ⟨ha, hal⟩
  | tail hab hbc ih =>
    obtain ⟨hp, hm⟩ := ih
    exact alertNE_preserves cfg catalog hbc hp hm

/-- C2: once a controller is disabled and never re-enabled, its event
buffer never changes again: the disable transition clears the pending
timer synchronously, and along every subsequent trace of
disable/timer-fire steps (no enable) no armed timer exists, so no callback
scheduled before the disable can mutate the buffer.  For the bot loop the
buffer keeps the value it had at disable time; for the alert loop the
disable transition itself empties the buffer and it stays empty. -/
theorem disable_cancels_and_freezes (cfg : BotSim.BotTimingConfig)
    (catalog : List BotSim.MessageTemplate) (s : BotSim.LoopState)
    (acfg : SmartAlerts.AlertTimingConfig)
    (acatalog : List SmartAlerts.AlertTemplate) (s2 : SmartAlerts.LoopState)
    (t : BotSim.LoopState) (t2 : SmartAlerts.LoopState)
    (hbot : Relation.ReflTransGen (BotSim.StepNE cfg catalog)
      (BotSim.disableStep s) t)
    (halert : Relation.ReflTransGen (SmartAlerts.StepNE acfg acatalog)
      (SmartAlerts.disableStep s2) t2) :
    (BotSim.disableStep s).pending = none ∧
    t.messages = s.messages ∧ t.pending = none ∧
    (SmartAlerts.disableStep s2).pending = none ∧
    t2.alerts = (SmartAlerts.disableStep s2).alerts ∧ t2.pending = none := by
  obtain ⟨hp, hm⟩ := botNE_rtg cfg catalog hbot rfl
  obtain ⟨hp2, hm2⟩ := alertNE_rtg acfg acatalog halert rfl rfl
  exact ⟨rfl, hm, hp, rfl, hm2, hp2⟩

/-- Enabled bot-loop state with an armed timer and nonempty transient
state, used by witnesses and counterexamples. -/
def bOn : BotSim.LoopState :=
  ⟨true, false, some (0, 5000), 1, ["m1"], true, ["t1"], ⟨1, 0, [9000]⟩⟩

/-- Enabled alert-loop state with an armed timer, one buffered alert and
nonempty transient state. -/
def aOn : SmartAlerts.LoopState :=
  ⟨true, false, some (0, 5000), 1, ["a1"], [("x", 5)], .medium, ⟨0, 1, [8000]⟩⟩

/-- Witness for C2 at the concrete states bOn and aOn with the empty
trace after disabling. -/
theorem disable_cancels_and_freezes_witness :
    (BotSim.disableStep bOn).pending = none ∧
    (BotSim.disableStep bOn).messages = bOn.messages ∧
    (BotSim.disableStep bOn).pending = none ∧
    (SmartAlerts.disableStep aOn).pending = none ∧
    (SmartAlerts.disableStep aOn).alerts = (SmartAlerts.disableStep aOn).alerts ∧
    (SmartAlerts.disableStep aOn).pending = none :=
  disable_cancels_and_freezes BotSim.DEFAULT_BOT_TIMING [] bOn
    SmartAlerts.DEFAULT_ALERT_TIMING [] aOn
    (BotSim.disableStep bOn) (SmartAlerts.disableStep aOn)
    Relation.ReflTransGen.refl Relation.ReflTransGen.refl

/-- Counterexample to C8: disabling the alert controller in state aOn
empties its alert buffer (the claim says the emitted buffer is left
unchanged), and disabling the bot controller in state bOn leaves its
recent-use set and interval history untouched (the claim says the
transient state is cleared at disable). -/
theorem disable_frame_counterexample :
    (SmartAlerts.disableStep aOn).alerts ≠ aOn.alerts ∧
    (BotSim.disableStep bOn).recent = bOn.recent ∧ bOn.recent ≠ [] ∧
    (BotSim.disableStep bOn).sched.history = bOn.sched.history ∧
    bOn.sched.history ≠ [] := by
  refine ⟨?_, rfl, ?_, rfl, ?_⟩ <;> simp [SmartAlerts.disableStep, aOn, bOn]

/-- The sched, cancelled and timerSeq fields survive seedInitialMessage. -/
theorem seed_preserves (catalog : List BotSim.MessageTemplate)
    (s : BotSim.LoopState) (env : BotSim.StepEnv) :
    (BotSim.seedInitialMessage catalog s env).sched = s.sched ∧
    (BotSim.seedInitialMessage catalog s env).cancelled = s.cancelled ∧
    (BotSim.seedInitialMessage catalog s env).timerSeq = s.timerSeq := by
  unfold BotSim.seedInitialMessage
  split
  · exact ⟨rfl, rfl, rfl⟩
  · rcases hg : (BotSim.generateMessage catalog s.recent env.gen.slot
        env.gen.pref env.gen.regime env.gen.session env.pick).1 with _ | t <;>
      simp [hg]

/-- C8 amended: the disable transition of each controller cancels the
pending timer but leaves the transient scheduling state (recent-use set,
burst/calm counters, interval history) untouched — that state is
re-initialised at the start of the next enable, whose first delay is
computed from the reset state — and the bot buffer survives disable while
the alert controller additionally clears its alert buffer and usage map at
disable. -/
theorem disable_frame_amended (s : BotSim.LoopState)
    (s2 : SmartAlerts.LoopState) (cfg : BotSim.BotTimingConfig)
    (catalog : List BotSim.MessageTemplate) (env : BotSim.StepEnv)
    (acfg : SmartAlerts.AlertTimingConfig) (env2 : SmartAlerts.StepEnv) :
    (BotSim.disableStep s).pending = none ∧
    (BotSim.disableStep s).messages = s.messages ∧
    (BotSim.disableStep s).recent = s.recent ∧
    (BotSim.disableStep s).sched = s.sched ∧
    (SmartAlerts.disableStep s2).pending = none ∧
    (SmartAlerts.disableStep s2).alerts = [] ∧
    (SmartAlerts.disableStep s2).usage = [] ∧
    (SmartAlerts.disableStep s2).sched = s2.sched ∧
    (BotSim.enableStep cfg catalog s env).sched =
      (BotSim.computeNextInterval cfg env.interval ⟨0, 0, []⟩ env.tape).2.1 ∧
    (SmartAlerts.enableStep acfg s2 env2).sched =
      (SmartAlerts.computeNextInterval acfg env2.hour env2.ctx
        s2.lastPriority ⟨0, 0, []⟩ env2.tape).2.1 := by
  refine ⟨rfl, rfl, rfl, rfl, rfl, rfl, rfl, rfl, ?_, rfl⟩
  simp only [BotSim.enableStep, BotSim.scheduleNext]
  rw [(seed_preserves _ _ _).2.1, (seed_preserves _ _ _).1]
  simp

/-- Disabled alert-loop state. -/
def aOff : SmartAlerts.LoopState :=
  ⟨false, true, none, 0, [], [], .medium, ⟨0, 0, []⟩⟩

/-- Environment with hour 0, no active event flags and the all-zero random
stream. -/
def envA : SmartAlerts.StepEnv := ⟨0, exactCtx, 0, 0, ⟨fun _ => 0, 0⟩⟩

/-- Counterexample to C9: enabling the alert controller from the disabled
state emits nothing (the buffer is still empty immediately after the
enable transition) and arms the first timer with delay 17388 ≥ 6000
milliseconds, so the first alert is not seeded at enable time but only
after a full computed delay. -/
theorem enable_seed_counterexample :
    (SmartAlerts.enableStep SmartAlerts.DEFAULT_ALERT_TIMING aOff envA).alerts = [] ∧
    (SmartAlerts.enableStep SmartAlerts.DEFAULT_ALERT_TIMING aOff envA).pending =
      some (0, 17388) ∧ (6000 : ℚ) ≤ 17388 := by
  refine ⟨rfl, ?_, by norm_num⟩
  norm_num [SmartAlerts.enableStep, SmartAlerts.computeNextInterval,
    applyWindowMultiplier, RandomTape.next, randomBetween, randomIntBetween,
    getTimeOfDaySlot, pushHistory, jsSliceFrom, aOff, envA, exactCtx,
    SmartAlerts.DEFAULT_ALERT_TIMING, max_def]

/-- C9 amended: enabling useBotSimulation seeds one immediate event
whenever the generator produces one (the buffer holds it at enable time,
before the armed delay elapses) and then arms the timer loop; enabling
useSmartAlerts emits nothing at enable and arms its first timer with
delay max(6000, computed interval) ≥ 6000, entering the wait → emit loop
only after that delay. -/
theorem enable_seed_amended
    (cfg : BotSim.BotTimingConfig) (catalog : List BotSim.MessageTemplate)
    (s : BotSim.LoopState) (env : BotSim.StepEnv)
    (acfg : SmartAlerts.AlertTimingConfig) (s2 : SmartAlerts.LoopState)
    (env2 : SmartAlerts.StepEnv) (t : BotSim.MessageTemplate)
    (rec1 : List String)
    (hseed : s.hasSeeded = false)
    (hgen : BotSim.generateMessage catalog s.recent env.gen.slot env.gen.pref
      env.gen.regime env.gen.session env.pick = (some t, rec1)) :
    (BotSim.enableStep cfg catalog s env).messages = [t.id] ∧
    (BotSim.enableStep cfg catalog s env).pending =
      some (s.timerSeq,
        (BotSim.computeNextInterval cfg env.interval ⟨0, 0, []⟩ env.tape).1) ∧
    (SmartAlerts.enableStep acfg s2 env2).alerts = s2.alerts ∧
    (SmartAlerts.enableStep acfg s2 env2).pending =
      some (s2.timerSeq, max 6000 (SmartAlerts.computeNextInterval acfg
        env2.hour env2.ctx s2.lastPriority ⟨0, 0, []⟩ env2.tape).1) ∧
    (6000 : ℚ) ≤ max 6000 (SmartAlerts.computeNextInterval acfg
        env2.hour env2.ctx s2.lastPriority ⟨0, 0, []⟩ env2.tape).1 := by
  refine ⟨?_, ?_, rfl, rfl, le_max_left _ _⟩ <;>
    simp [BotSim.enableStep, BotSim.seedInitialMessage, BotSim.scheduleNext,
      hseed, hgen]

/-- Concrete evaluation of the generator for the C9 witness: from an empty
recent-use set the one-template catalog seeds wtA. -/
theorem gen_eval : BotSim.generateMessage [wtA] [] .morning .stable .bull
    .asia_open 0 = (some wtA, ["exec1"]) := by
  norm_num [BotSim.generateMessage, BotSim.getFilteredTemplates,
    BotSim.buildWeightedPool, BotSim.weightFor, BotSim.recordRecentUse,
    lastN, jsRound, BotSim.priorityWeight, BotSim.REGIME_CATEGORY_WEIGHTS,
    BotSim.SESSION_CATEGORY_WEIGHTS, wtA, max_def, Int.floor_eq_iff,
    List.replicate]

/-- Disabled bot-loop state. -/
def bOff : BotSim.LoopState := ⟨false, true, none, 0, [], false, [], ⟨0, 0, []⟩⟩

/-- Environment for the bot enable witness. -/
def envB : BotSim.StepEnv :=
  ⟨⟨.morning, .stable, .bull, .asia_open⟩, ⟨0, .medium, .up, .asia_open, .bull⟩,
    0, ⟨fun _ => 0, 0⟩⟩

/-- Witness for the amended C9 at the concrete disabled states bOff and
aOff with the one-template catalog. -/
theorem enable_seed_amended_witness :
    (BotSim.enableStep BotSim.DEFAULT_BOT_TIMING [wtA] bOff envB).messages =
      [wtA.id] ∧
    (BotSim.enableStep BotSim.DEFAULT_BOT_TIMING [wtA] bOff envB).pending =
      some (bOff.timerSeq, (BotSim.computeNextInterval BotSim.DEFAULT_BOT_TIMING
        envB.interval ⟨0, 0, []⟩ envB.tape).1) ∧
    (SmartAlerts.enableStep SmartAlerts.DEFAULT_ALERT_TIMING aOff envA).alerts =
      aOff.alerts ∧
    (SmartAlerts.enableStep SmartAlerts.DEFAULT_ALERT_TIMING aOff envA).pending =
      some (aOff.timerSeq, max 6000 (SmartAlerts.computeNextInterval
        SmartAlerts.DEFAULT_ALERT_TIMING envA.hour envA.ctx aOff.lastPriority
        ⟨0, 0, []⟩ envA.tape).1) ∧
    (6000 : ℚ) ≤ max 6000 (SmartAlerts.computeNextInterval
        SmartAlerts.DEFAULT_ALERT_TIMING envA.hour envA.ctx aOff.lastPriority
        ⟨0, 0, []⟩ envA.tape).1 :=
  enable_seed_amended BotSim.DEFAULT_BOT_TIMING [wtA] bOff envB
    SmartAlerts.DEFAULT_ALERT_TIMING aOff envA wtA ["exec1"] rfl gen_eval

/-- When the inserted id is new, recordRecentUse appends it and keeps the
last 15 entries. -/
theorem recordRecentUse_eq (recent : List String) (id : String)
    (h : id ∉ recent) :
    BotSim.recordRecentUse recent id = lastN 15 (recent ++ [id]) := by
  have hc : recent.contains id = false := by simpa using h
  unfold BotSim.recordRecentUse
  rw [hc]
  simp only [Bool.false_eq_true, if_false]
  split_ifs with hl
  · rfl
  · simp only [lastN, List.length_append]
    rw [Nat.sub_eq_zero_of_le (by simp at hl ⊢; omega), List.drop_zero]

/-- recordRecentUse never grows the recent-use set beyond 15 entries. -/
theorem recordRecentUse_bounded (recent : List String) (id : String)
    (h : recent.length ≤ 15) :
    (BotSim.recordRecentUse recent id).length ≤ 15 := by
  unfold BotSim.recordRecentUse
  by_cases hc : recent.contains id = true
  · rw [if_pos hc]
    show (if recent.length > 15 then lastN 15 recent else recent).length ≤ 15
    split_ifs with h2
    · simp only [lastN, List.length_drop]
      omega
    · exact h
  · rw [if_neg hc]
    show (if (recent ++ [id]).length > 15 then lastN 15 (recent ++ [id])
      else recent ++ [id]).length ≤ 15
    split_ifs with h2
    · simp only [lastN, List.length_drop]
      omega
    · simp only [not_lt, List.length_append, List.length_cons,
        List.length_nil] at h2
      simpa using h2

/-- A template that survives the candidate filter is not in the recent-use
set. -/
theorem filtered_not_recent (catalog : List BotSim.MessageTemplate)
    (recent : List String) (slot : TimeOfDaySlot)
    (pref : BotSim.MarketConditionPreference) (t : BotSim.MessageTemplate)
    (h : t ∈ BotSim.getFilteredTemplates catalog recent slot pref) :
    t.id ∉ recent := by
  simp only [BotSim.getFilteredTemplates, List.mem_filter, Bool.and_eq_true,
    Bool.not_eq_true'] at h
  intro hmem
  have := h.2.1.1
  simp [hmem] at this

/-- Every entry of the weighted pool comes from the candidate set. -/
theorem mem_of_mem_pool (candidates : List BotSim.MessageTemplate)
    (regime : MarketRegime) (session : SessionSlot)
    (t : BotSim.MessageTemplate)
    (h : t ∈ BotSim.buildWeightedPool candidates regime session) :
    t ∈ candidates := by
  simp only [BotSim.buildWeightedPool, List.mem_flatMap] at h
  obtain ⟨x, hx, ht⟩ := h
  rw [List.eq_of_mem_replicate ht]
  exact hx

/-- When generateMessage emits a template, its id was not in the recent-use
set and the new recent-use set is recordRecentUse of it. -/
theorem generateMessage_some_spec (catalog : List BotSim.MessageTemplate)
    (recent : List String) (slot : TimeOfDaySlot)
    (pref : BotSim.MarketConditionPreference) (regime : MarketRegime)
    (session : SessionSlot) (r : ℚ) (t : BotSim.MessageTemplate)
    (rec1 : List String)
    (h : BotSim.generateMessage catalog recent slot pref regime session r =
      (some t, rec1)) :
    t.id ∉ recent ∧ rec1 = BotSim.recordRecentUse recent t.id := by
  unfold BotSim.generateMessage at h
  by_cases he : (BotSim.getFilteredTemplates catalog recent slot pref).isEmpty
  · simp [he] at h
  · simp only [he, Bool.false_eq_true, if_false] at h
    rcases hp : (BotSim.buildWeightedPool
        (BotSim.getFilteredTemplates catalog recent slot pref) regime
        session).get?
        (⌊r * ((BotSim.buildWeightedPool
          (BotSim.getFilteredTemplates catalog recent slot pref) regime
          session).length : ℚ)⌋).toNat with _ | t2
    · rw [hp] at h
      simp at h
    · rw [hp] at h
      simp only [Prod.mk.injEq, Option.some.injEq] at h
      obtain ⟨ht, hrec⟩ := h
      rw [List.get?_eq_getElem?] at hp
      have hm : t2 ∈ BotSim.getFilteredTemplates catalog recent slot pref :=
        mem_of_mem_pool _ _ _ _ (List.getElem?_mem hp)
      constructor
      · rw [← ht]
        exact filtered_not_recent _ _ _ _ _ hm
      · rw [← hrec, ht]

/-- An entry whose distance from the end of s is at most n belongs to the
last n entries of l ++ s. -/
theorem get_mem_lastN (l s : List α) (n i : ℕ) (hi : i < s.length)
    (h : s.length - i ≤ n) : s.get ⟨i, hi⟩ ∈ lastN n (l ++ s) := by
  rw [lastN_eq_reverse, List.mem_reverse, List.reverse_append]
  have hjn : s.length - 1 - i < n := by omega
  have hjr : s.length - 1 - i < s.reverse.length := by
    simp only [List.length_reverse]
    omega
  have hjt : s.length - 1 - i < ((s.reverse ++ l.reverse).take n).length := by
    simp only [List.length_take, List.length_append, List.length_reverse]
    exact lt_min hjn (by omega)
  have he : ((s.reverse ++ l.reverse).take n).get ⟨s.length - 1 - i, hjt⟩ =
      s.get ⟨i, hi⟩ := by
    simp only [List.get_eq_getElem, List.getElem_take,
      List.getElem_append_left hjr, List.getElem_reverse]
    congr 1
    omega
  rw [← he]
  exact List.get_mem _ _ _

/-- Abbreviation for the generator call a run makes at step k. -/
def stepGen (catalog : List BotSim.MessageTemplate)
    (ctxs : ℕ → BotSim.GenContext) (rs : ℕ → ℚ) (recent0 : List String)
    (k : ℕ) : Option BotSim.MessageTemplate × List String :=
  BotSim.generateMessage catalog
    (BotSim.botRun catalog ctxs rs recent0 k).2
    (ctxs k).slot (ctxs k).pref (ctxs k).regime (ctxs k).session (rs k)

/-- Unfolding one emitting step of a run. -/
theorem botRun_succ (catalog : List BotSim.MessageTemplate)
    (ctxs : ℕ → BotSim.GenContext) (rs : ℕ → ℚ) (recent0 : List String)
    (n : ℕ) (t : BotSim.MessageTemplate) (rec1 : List String)
    (h : stepGen catalog ctxs rs recent0 n = (some t, rec1)) :
    BotSim.botRun catalog ctxs rs recent0 (n + 1) =
      ((BotSim.botRun catalog ctxs rs recent0 n).1 ++ [t.id], rec1) := by
  have h1 : (stepGen catalog ctxs rs recent0 n).1 = some t := by rw [h]
  have h2 : (stepGen catalog ctxs rs recent0 n).2 = rec1 := by rw [h]
  simp only [BotSim.botRun, stepGen] at h1 h2 ⊢
  rw [h1, h2]

/-- Run invariant: along a run with no exhaustion reset, the recent-use set
is exactly the last 15 entries of the initial set followed by the emitted
ids. -/
theorem botRun_recent_inv (catalog : List BotSim.MessageTemplate)
    (ctxs : ℕ → BotSim.GenContext) (rs : ℕ → ℚ) (recent0 : List String)
    (n : ℕ) (hr0 : recent0.length ≤ 15)
    (hall : ∀ k, k < n → (stepGen catalog ctxs rs recent0 k).1.isSome = true) :
    (BotSim.botRun catalog ctxs rs recent0 n).2 =
      lastN 15 (recent0 ++ (BotSim.botRun catalog ctxs rs recent0 n).1) := by
  induction n with
  | zero =>
    simp only [BotSim.botRun, List.append_nil, lastN,
      Nat.sub_eq_zero_of_le hr0, List.drop_zero]
  | succ n ih =>
    have hall' : ∀ k, k < n → (stepGen catalog ctxs rs recent0 k).1.isSome = true :=
      fun k hk => hall k (by omega)
    rcases hg : stepGen catalog ctxs rs recent0 n with ⟨og, rec1⟩
    have hsome : og.isSome = true := by
      have := hall n (by omega)
      rw [hg] at this
      exact this
    rcases og with _ | t
    · cases hsome
    · have hstep := botRun_succ catalog ctxs rs recent0 n t rec1 hg
      have hspec := generateMessage_some_spec catalog
        (BotSim.botRun catalog ctxs rs recent0 n).2 (ctxs n).slot (ctxs n).pref
        (ctxs n).regime (ctxs n).session (rs n) t rec1 hg
      rw [hstep]
      simp only
      rw [hspec.2, recordRecentUse_eq _ _ hspec.1, ih hall',
        lastN_append_lastN]
      congr 1
      simp

/-- No-repetition core of C4: along a run with no exhaustion reset, the
ids at two positions at distance at most 15 differ. -/
theorem botRun_no_repeat (catalog : List BotSim.MessageTemplate)
    (ctxs : ℕ → BotSim.GenContext) (rs : ℕ → ℚ) (recent0 : List String)
    (hr0 : recent0.length ≤ 15) :
    ∀ n, (∀ k, k < n → (stepGen catalog ctxs rs recent0 k).1.isSome = true) →
    ∀ i j, i < j → j < (BotSim.botRun catalog ctxs rs recent0 n).1.length →
    j - i ≤ 15 →
      (BotSim.botRun catalog ctxs rs recent0 n).1.get? i ≠
      (BotSim.botRun catalog ctxs rs recent0 n).1.get? j := by
  intro n
  induction n with
  | zero =>
    intro hall i j hij hj hwin
    simp [BotSim.botRun] at hj
  | succ n ih =>
    intro hall i j hij hj hwin
    have hall' : ∀ k, k < n →
        (stepGen catalog ctxs rs recent0 k).1.isSome = true :=
      fun k hk => hall k (by omega)
    rcases hg : stepGen catalog ctxs rs recent0 n with ⟨og, rec1⟩
    have hsome : og.isSome = true := by
      have := hall n (by omega)
      rw [hg] at this
      exact this
    rcases og with _ | t
    · cases hsome
    · have hstep := botRun_succ catalog ctxs rs recent0 n t rec1 hg
      rw [hstep] at hj ⊢
      simp only [List.length_append, List.length_cons, List.length_nil] at hj
      by_cases hjl : j < (BotSim.botRun catalog ctxs rs recent0 n).1.length
      · rw [List.get?_append hjl, List.get?_append (by omega)]
        exact ih hall' i j hij hjl hwin
      · have hje : j = (BotSim.botRun catalog ctxs rs recent0 n).1.length := by
          omega
        have hi : i < (BotSim.botRun catalog ctxs rs recent0 n).1.length := by
          omega
        rw [hje, List.get?_concat_length, List.get?_append hi,
          List.get?_eq_get hi]
        have hspec := generateMessage_some_spec catalog
          (BotSim.botRun catalog ctxs rs recent0 n).2 (ctxs n).slot
          (ctxs n).pref (ctxs n).regime (ctxs n).session (rs n) t rec1 hg
        have hinv := botRun_recent_inv catalog ctxs rs recent0 n hr0 hall'
        have hmem : (BotSim.botRun catalog ctxs rs recent0 n).1.get ⟨i, hi⟩ ∈
            (BotSim.botRun catalog ctxs rs recent0 n).2 := by
          rw [hinv]
          exact get_mem_lastN _ _ 15 i hi (by omega)
        intro heq
        have : (BotSim.botRun catalog ctxs rs recent0 n).1.get ⟨i, hi⟩ = t.id :=
          by injection heq
        rw [this] at hmem
        exact hspec.1 hmem

/-- C4: along any run of consecutive emissions with no exhaustion reset
(every step emits), two emissions whose positions are at most 15 apart
never carry the same template id — in particular no id repeats within any
window of 15 consecutive emissions; moreover a template whose id is in the
recent-use set never passes the candidate filter, the recent-use set is
capacity-bounded at 15, and inserting a fresh id into a full set evicts
exactly the oldest entry (FIFO). -/
theorem recent_use_window (catalog : List BotSim.MessageTemplate)
    (ctxs : ℕ → BotSim.GenContext) (rs : ℕ → ℚ) (recent0 : List String)
    (n i j : ℕ) (slot : TimeOfDaySlot)
    (pref : BotSim.MarketConditionPreference) (id0 : String)
    (hr0 : recent0.length ≤ 15)
    (hall : ∀ k, k < n → (stepGen catalog ctxs rs recent0 k).1.isSome = true)
    (hij : i < j)
    (hj : j < (BotSim.botRun catalog ctxs rs recent0 n).1.length)
    (hwin : j - i ≤ 15) :
    (BotSim.botRun catalog ctxs rs recent0 n).1.get? i ≠
      (BotSim.botRun catalog ctxs rs recent0 n).1.get? j ∧
    (∀ t ∈ BotSim.getFilteredTemplates catalog recent0 slot pref,
      t.id ∉ recent0) ∧
    (BotSim.recordRecentUse recent0 id0).length ≤ 15 ∧
    (recent0.length = 15 → id0 ∉ recent0 →
      BotSim.recordRecentUse recent0 id0 = recent0.tail ++ [id0]) := by
  refine ⟨botRun_no_repeat catalog ctxs rs recent0 hr0 n hall i j hij hj hwin,
    fun t ht => filtered_not_recent catalog recent0 slot pref t ht,
    recordRecentUse_bounded recent0 id0 hr0, ?_⟩
  intro hlen hnm
  rw [recordRecentUse_eq recent0 id0 hnm]
  have hd : (recent0 ++ [id0]).drop 1 = recent0.drop 1 ++ [id0] :=
    List.drop_append_of_le_length (by omega)
  simp only [lastN, List.length_append, List.length_cons, List.length_nil,
    hlen]
  norm_num [hd, List.drop_one]

/-- Constant context stream for the C4 witness run. -/
def runCtx : ℕ → BotSim.GenContext :=
  fun _ => ⟨.morning, .stable, .bull, .asia_open⟩

/-- All-zero pool-draw stream for the C4 witness run. -/
def runRs : ℕ → ℚ := fun _ => 0

/-- First step of the witness run emits wtA. -/
theorem run_e0 : stepGen [wtA, wtB] runCtx runRs [] 0 = (some wtA, ["exec1"]) := by
  norm_num +decide [stepGen, BotSim.botRun, runCtx, runRs,
    BotSim.generateMessage, BotSim.getFilteredTemplates,
    BotSim.buildWeightedPool, BotSim.weightFor, BotSim.recordRecentUse, lastN,
    jsRound, BotSim.priorityWeight, BotSim.REGIME_CATEGORY_WEIGHTS,
    BotSim.SESSION_CATEGORY_WEIGHTS, wtA, wtB, max_def, Int.floor_eq_iff,
    List.replicate]

/-- With wtA recently used, the generator emits wtB. -/
theorem gen_eval2 : BotSim.generateMessage [wtA, wtB] ["exec1"] .morning
    .stable .bull .asia_open 0 = (some wtB, ["exec1", "scan1"]) := by
  norm_num +decide [BotSim.generateMessage, BotSim.getFilteredTemplates,
    BotSim.buildWeightedPool, BotSim.weightFor, BotSim.recordRecentUse,
    lastN, jsRound, BotSim.priorityWeight, BotSim.REGIME_CATEGORY_WEIGHTS,
    BotSim.SESSION_CATEGORY_WEIGHTS, wtA, wtB, max_def, Int.floor_eq_iff,
    List.replicate]

/-- Second step of the witness run emits wtB. -/
theorem run_e1 : stepGen [wtA, wtB] runCtx runRs [] 1 =
    (some wtB, ["exec1", "scan1"]) := by
  have h1 : BotSim.botRun [wtA, wtB] runCtx runRs [] 1 = (["exec1"], ["exec1"]) := by
    have := botRun_succ [wtA, wtB] runCtx runRs [] 0 wtA ["exec1"] run_e0
    simpa [BotSim.botRun, wtA] using this
  simp only [stepGen, h1, runCtx, runRs]
  exact gen_eval2

/-- The two-step witness run emits exec1 then scan1. -/
theorem run_out2 : BotSim.botRun [wtA, wtB] runCtx runRs [] 2 =
    (["exec1", "scan1"], ["exec1", "scan1"]) := by
  have h1 : BotSim.botRun [wtA, wtB] runCtx runRs [] 1 = (["exec1"], ["exec1"]) := by
    have := botRun_succ [wtA, wtB] runCtx runRs [] 0 wtA ["exec1"] run_e0
    simpa [BotSim.botRun, wtA] using this
  have := botRun_succ [wtA, wtB] runCtx runRs [] 1 wtB ["exec1", "scan1"] run_e1
  rw [this, h1]
  simp [wtB]

/-- Witness for C4: the concrete two-step run on the catalog [wtA, wtB]
emits two distinct template ids. -/
theorem recent_use_window_witness :
    (BotSim.botRun [wtA, wtB] runCtx runRs [] 2).1.get? 0 ≠
      (BotSim.botRun [wtA, wtB] runCtx runRs [] 2).1.get? 1 ∧
    (∀ t ∈ BotSim.getFilteredTemplates [wtA, wtB] [] .morning .stable,
      t.id ∉ ([] : List String)) ∧
    (BotSim.recordRecentUse [] "zzz").length ≤ 15 ∧
    (([] : List String).length = 15 → "zzz" ∉ ([] : List String) →
      BotSim.recordRecentUse [] "zzz" = ([] : List String).tail ++ ["zzz"]) :=
  recent_use_window [wtA, wtB] runCtx runRs [] 2 0 1 .morning .stable "zzz"
    (by simp)
    (by
      intro k hk
      interval_cases k
      · rw [run_e0]
        rfl
      · rw [run_e1]
        rfl)
    (by norm_num)
    (by rw [run_out2]; norm_num)
    (by norm_num)
